import Mathlib

/-!
Verification development for the media-assistant article pipeline.

The Python sources are shallowly embedded. Pure functions become Lean
functions over `String` and `List`; Python dictionaries become ordered
association lists (`List (String × String)`), matching dict
insertion-order semantics; calls to the external LLM provider are passed
in explicitly as oracles, and file contents consulted by the cache are
passed in as `Option` values. Python `str` operations are modelled for
the ASCII inputs that the pipeline manipulates. Floating-point
arithmetic (the sentence-variation metrics) is modelled exactly over `ℚ`.
-/

/-! ## Python string primitives -/

/-- Whitespace characters stripped by Python `str.strip()` (ASCII part). -/
def pyIsSpaceChar (c : Char) : Bool :=
  (c == ' ') || (c == '\t') || (c == '\n') || (c == '\x0d') || (c == '\x0b') || (c == '\x0c')

/-- Python `str.strip()` on the underlying character list. -/
def pyStripList (l : List Char) : List Char :=
  ((l.dropWhile pyIsSpaceChar).reverse.dropWhile pyIsSpaceChar).reverse

/-- Python `str.strip()`. -/
def pyStrip (s : String) : String := ⟨pyStripList s.data⟩

/-- Python `str.lstrip()`. -/
def pyLstrip (s : String) : String := ⟨s.data.dropWhile pyIsSpaceChar⟩

/-- Python `str.rstrip()`. -/
def pyRstrip (s : String) : String := ⟨(s.data.reverse.dropWhile pyIsSpaceChar).reverse⟩

/-- Python `str.rstrip(chars)`: drop trailing characters from the given set. -/
def pyRstripSet (cs : List Char) (s : String) : String :=
  ⟨(s.data.reverse.dropWhile (fun c => cs.contains c)).reverse⟩

/-- Python `str.lower()` (ASCII case mapping; the inputs in scope are ASCII). -/
def pyLower (s : String) : String := ⟨s.data.map Char.toLower⟩

/-- Python `str.replace(a, b)` for single characters. -/
def pyReplaceChar (a b : Char) (s : String) : String :=
  ⟨s.data.map (fun c => if c == a then b else c)⟩

/-- Python substring test `pat in l` on character lists (empty pattern matches). -/
def listContainsSub (pat : List Char) : List Char → Bool
  | [] => pat.isEmpty
  | c :: rest => pat.isPrefixOf (c :: rest) || listContainsSub pat rest

/-- Python substring test `pat in s`. -/
def pyContains (s pat : String) : Bool := listContainsSub pat.data s.data

/-- Python `str.startswith`. -/
def pyStartsWith (s pat : String) : Bool := pat.data.isPrefixOf s.data

/-- Python `str.endswith`. -/
def pyEndsWith (s pat : String) : Bool := pat.data.reverse.isPrefixOf s.data.reverse

/-- Non-overlapping occurrence count, scanning left to right. The fuel is
the text length (every step consumes at least one character), keeping the
recursion structural so that it reduces in the kernel. -/
def countSubGo (p : Char) (ps : List Char) : Nat → List Char → Nat
  | 0, _ => 0
  | _ + 1, [] => 0
  | fuel + 1, c :: rest =>
    if (p :: ps).isPrefixOf (c :: rest) then
      1 + countSubGo p ps fuel (rest.drop ps.length)
    else
      countSubGo p ps fuel rest

/-- Python `str.count(pat)`: non-overlapping occurrences. For the empty
pattern Python returns `len(s) + 1`. -/
def pyCount (s pat : String) : Nat :=
  match pat.data with
  | [] => s.data.length + 1
  | p :: ps => countSubGo p ps s.data.length s.data

/-- Python `str.split(sep)` for a single-character separator: splits at every
occurrence, keeping empty pieces. -/
def pySplitChar (sep : Char) (s : String) : List String :=
  (splitAux s.data [] []).reverse
where
  splitAux : List Char → List Char → List (List Char) → List String
    | [], cur, acc => (cur.reverse :: acc).map (fun l => (⟨l⟩ : String))
    | c :: rest, cur, acc =>
      if c == sep then splitAux rest [] (cur.reverse :: acc)
      else splitAux rest (c :: cur) acc

/-- Python `sep.join(parts)`. -/
def pyJoin (sep : String) (parts : List String) : String :=
  match parts with
  | [] => ""
  | p :: rest => rest.foldl (fun acc q => acc ++ sep ++ q) p

/-- Python `str.split()` with no argument: split on runs of whitespace,
dropping empty pieces. -/
def pySplitWs (s : String) : List String :=
  go s.data []
where
  go : List Char → List Char → List String
    | [], cur => if cur.isEmpty then [] else [⟨cur.reverse⟩]
    | c :: rest, cur =>
      if pyIsSpaceChar c then
        if cur.isEmpty then go rest [] else (⟨cur.reverse⟩ : String) :: go rest []
      else go rest (c :: cur)

/-! ## Ordered dictionaries (Python `dict` with insertion order) -/

/-- Article section maps and user contexts are Python dicts from strings to
strings; we model them as ordered association lists. -/
abbrev Dict := List (String × String)

/-- Python `d[k]` lookup (keys are unique in a well-formed dict, so the first
binding is the binding). -/
def dictGet (d : Dict) (k : String) : Option String :=
  (d.find? (fun p => p.1 == k)).map (fun p => p.2)

/-- Python `k in d`. -/
def dictContains (d : Dict) (k : String) : Bool :=
  d.any (fun p => p.1 == k)

/-- Python `d[k] = v`: update in place if the key exists (keeping its
position), otherwise append. -/
def dictInsert (d : Dict) (k v : String) : Dict :=
  if dictContains d k then
    d.map (fun p => if p.1 == k then (k, v) else p)
  else
    d ++ [(k, v)]

/-- Python `list(d.keys())`. -/
def dictKeys (d : Dict) : List String := d.map (fun p => p.1)

/-- Python `del d[k]` (no error if the guard `k in d` was checked first;
removing a missing key is the identity here). -/
def dictRemove (d : Dict) (k : String) : Dict :=
  d.filter (fun p => p.1 != k)

/-! ## Section-map merge (editor_agent.py lines 64-72, humanizer_agent.py lines 105-113)

Both agents run the identical loop
`for s in article_dict.keys(): final[s] = edited[s] if s in edited else article[s]`
to merge the parsed model output back against the input map. -/

/-- Merge a parsed output `p` against the input map `m`, keeping the key set
and order of `m`. -/
def mergeSections (m : Dict) (p : Dict) : Dict :=
  m.map (fun kv => (kv.1, if dictContains p kv.1 then (dictGet p kv.1).getD kv.2 else kv.2))

/-! ## Search results and the research-stage deduplication
(research_agent.py lines 109-121) -/

/-- The `SearchResult` dataclass from utils/search.py. -/
structure SearchResult where
  title : String
  url : String
  snippet : String
  text? : Option String := none
deriving Repr, DecidableEq

/-- The deduplication loop of `ResearchAgent.research`: walk the merged
result list with a `seen_urls` set, keeping a record only if its (raw) url
was not seen before. -/
def dedupByUrlGo (seen : List String) : List SearchResult → List SearchResult
  | [] => []
  | r :: rest =>
    if seen.contains r.url then dedupByUrlGo seen rest
    else r :: dedupByUrlGo (r.url :: seen) rest

/-- Deduplicate by raw url, first occurrence winning (research_agent.py
lines 109-115, with `seen_urls` initially empty). -/
def dedupByUrl (rs : List SearchResult) : List SearchResult := dedupByUrlGo [] rs

/-- The source assembly of `ResearchAgent.research` after all queries have
run: deduplicate the merged list, then truncate to `max_results`
(research_agent.py lines 109-121). -/
def researchUniqueResults (allResults : List SearchResult) (maxResults : Nat) :
    List SearchResult :=
  (dedupByUrl allResults).take maxResults

/-! ## Python urllib.parse model (used by utils/formatter.py)

We model `urllib.parse.urlparse` / `urlunparse` from CPython for the ASCII
URLs the pipeline handles: strip surrounding control/space characters,
remove tab/CR/LF, split off a scheme (letter followed by letters, digits,
`+`, `-`, `.`), a `//`-netloc, then fragment (`#`), query (`?`) and, for
schemes that use them, params (`;` in the last path segment). A
bracket-mismatched netloc raises `ValueError` in CPython; we return `none`
there. -/

/-- Split a character list at the first occurrence of `sep`
(Python `s.split(sep, 1)` when `sep` occurs). -/
def splitFirst (sep : Char) : List Char → Option (List Char × List Char)
  | [] => none
  | c :: rest =>
    if c == sep then some ([], rest)
    else (splitFirst sep rest).map (fun ab => (c :: ab.1, ab.2))

/-- Characters allowed in a URL scheme after the first letter. -/
def isSchemeChar (c : Char) : Bool :=
  c.isAlphanum || (c == '+') || (c == '-') || (c == '.')

/-- Result record of `urllib.parse.urlparse`. -/
structure UrlParseResult where
  scheme : String
  netloc : String
  path : String
  params : String
  query : String
  fragment : String
deriving Repr, DecidableEq

/-- WHATWG C0-control-or-space strip applied by `urlsplit`. -/
def isC0ControlOrSpace (c : Char) : Bool := c.toNat ≤ 32

/-- Scheme extraction of `urlsplit`: if the text up to the first `:` is a
letter followed by scheme characters, split it off (lowercased). -/
def splitScheme (l : List Char) : String × List Char :=
  match List.findIdx? (fun c => c == ':') l with
  | none => ("", l)
  | some i =>
    if 0 < i then
      let pre := l.take i
      match pre with
      | [] => ("", l)
      | c0 :: rest =>
        if c0.isAlpha && rest.all isSchemeChar then
          (⟨(pre.map Char.toLower)⟩, l.drop (i + 1))
        else
          ("", l)
    else
      ("", l)

/-- Netloc extraction of `urlsplit` (`_splitnetloc`): after a leading `//`,
the netloc runs up to the next `/`, `?` or `#`. -/
def splitNetloc (l : List Char) : List Char × List Char :=
  (l.takeWhile (fun c => !(c == '/' || c == '?' || c == '#')),
   l.dropWhile (fun c => !(c == '/' || c == '?' || c == '#')))

/-- CPython `urllib.parse.urlsplit` for ASCII input, as
(scheme, netloc, path-with-params, query, fragment); `none` models the
`ValueError` raised on a bracket-mismatched netloc. -/
def pyUrlsplit (url : String) : Option (String × String × String × String × String) :=
  let l0 := ((url.data.dropWhile isC0ControlOrSpace).reverse.dropWhile isC0ControlOrSpace).reverse
  let l1 := l0.filter (fun c => !(c == '\t' || c == '\x0d' || c == '\n'))
  let (scheme, l2) := splitScheme l1
  let (netloc, l3) :=
    if ['/', '/'].isPrefixOf l2 then
      splitNetloc (l2.drop 2)
    else
      ([], l2)
  if (netloc.contains '[' && !netloc.contains ']') ||
     (netloc.contains ']' && !netloc.contains '[') then
    none
  else
    let (l4, fragment) :=
      match splitFirst '#' l3 with
      | some ab => ab
      | none => (l3, [])
    let (l5, query) :=
      match splitFirst '?' l4 with
      | some ab => ab
      | none => (l4, [])
    some (scheme, ⟨netloc⟩, ⟨l5⟩, ⟨query⟩, ⟨fragment⟩)

/-- Schemes for which `urlparse` splits `;params` off the path. -/
def usesParams : List String :=
  ["", "ftp", "hdl", "prospero", "http", "imap",
   "https", "shttp", "rtsp", "rtspu", "sip", "sips", "mms", "sftp", "tel"]

/-- CPython `_splitparams`: split at the first `;` of the last `/`-segment. -/
def splitParams (l : List Char) : List Char × List Char :=
  if l.contains '/' then
    let segStart := l.length - (l.reverse.takeWhile (fun c => !(c == '/'))).length
    let seg := l.drop segStart
    match List.findIdx? (fun c => c == ';') seg with
    | none => (l, [])
    | some j => (l.take (segStart + j), l.drop (segStart + j + 1))
  else
    match splitFirst ';' l with
    | some ab => ab
    | none => (l, [])

/-- CPython `urllib.parse.urlparse` for ASCII input (`none` models the
`ValueError` on bracket-mismatched netlocs). -/
def pyUrlparse (url : String) : Option UrlParseResult :=
  (pyUrlsplit url).map (fun r =>
    let (scheme, netloc, pathParams, query, fragment) := r
    if usesParams.contains scheme && pathParams.data.contains ';' then
      let (p, ps) := splitParams pathParams.data
      ⟨scheme, netloc, ⟨p⟩, ⟨ps⟩, query, fragment⟩
    else
      ⟨scheme, netloc, pathParams, "", query, fragment⟩)

/-- CPython `urlunsplit`. -/
def pyUrlunsplit (scheme netloc url query fragment : String) : String :=
  let url1 :=
    if netloc ≠ "" || (url ≠ "" && pyStartsWith url "//") then
      let u := if url ≠ "" && !pyStartsWith url "/" then "/" ++ url else url
      "//" ++ netloc ++ u
    else url
  let url2 := if scheme ≠ "" then scheme ++ ":" ++ url1 else url1
  let url3 := if query ≠ "" then url2 ++ "?" ++ query else url2
  if fragment ≠ "" then url3 ++ "#" ++ fragment else url3

/-- CPython `urlunparse`. -/
def pyUrlunparse (scheme netloc url params query fragment : String) : String :=
  let u := if params ≠ "" then url ++ ";" ++ params else url
  pyUrlunsplit scheme netloc u query fragment

/-! ## normalize_url_for_dedup (utils/formatter.py lines 288-308) -/

/-- Normalize a URL for deduplication: scheme + lowercased netloc + path,
query/params/fragment ignored, trailing slashes stripped; on a parse error
fall back to the lowercased url with trailing slashes stripped. -/
def normalize_url_for_dedup (url : String) : String :=
  if url = "" then ""
  else
    match pyUrlparse url with
    | some r =>
      pyRstripSet ['/'] (r.scheme ++ "://" ++ pyLower r.netloc ++ r.path)
    | none =>
      pyRstripSet ['/'] (pyLower url)

/-! ## SHA-256 (hashlib.sha256, used by utils/cache.py) -/

/-- Truncate to a 32-bit word. -/
def w32 (x : Nat) : Nat := x % 4294967296

/-- 32-bit rotate right. -/
def rotr32 (n x : Nat) : Nat := w32 ((x >>> n) ||| (x <<< (32 - n)))

/-- 32-bit complement. -/
def not32 (x : Nat) : Nat := 4294967295 - w32 x

/-- SHA-256 choice function. -/
def shaCh (e f g : Nat) : Nat := (e &&& f) ^^^ (not32 e &&& g)

/-- SHA-256 majority function. -/
def shaMaj (a b c : Nat) : Nat := (a &&& b) ^^^ (a &&& c) ^^^ (b &&& c)

/-- SHA-256 big sigma 0. -/
def bigSigma0 (a : Nat) : Nat := rotr32 2 a ^^^ rotr32 13 a ^^^ rotr32 22 a

/-- SHA-256 big sigma 1. -/
def bigSigma1 (e : Nat) : Nat := rotr32 6 e ^^^ rotr32 11 e ^^^ rotr32 25 e

/-- SHA-256 small sigma 0. -/
def smallSigma0 (x : Nat) : Nat := rotr32 7 x ^^^ rotr32 18 x ^^^ (x >>> 3)

/-- SHA-256 small sigma 1. -/
def smallSigma1 (x : Nat) : Nat := rotr32 17 x ^^^ rotr32 19 x ^^^ (x >>> 10)

/-- SHA-256 round constants. -/
def shaK : List Nat :=
  [1116352408, 1899447441, 3049323471, 3921009573, 961987163,
   1508970993, 2453635748, 2870763221, 3624381080, 310598401,
   607225278, 1426881987, 1925078388, 2162078206, 2614888103,
   3248222580, 3835390401, 4022224774, 264347078, 604807628,
   770255983, 1249150122, 1555081692, 1996064986, 2554220882,
   2821834349, 2952996808, 3210313671, 3336571891, 3584528711,
   113926993, 338241895, 666307205, 773529912, 1294757372,
   1396182291, 1695183700, 1986661051, 2177026350, 2456956037,
   2730485921, 2820302411, 3259730800, 3345764771, 3516065817,
   3600352804, 4094571909, 275423344, 430227734, 506948616,
   659060556, 883997877, 958139571, 1322822218, 1537002063,
   1747873779, 1955562222, 2024104815, 2227730452, 2361852424,
   2428436474, 2756734187, 3204031479, 3329325298]

/-- SHA-256 initial hash state. -/
def shaH0 : List Nat :=
  [1779033703, 3144134277, 1013904242, 2773480762,
   1359893119, 2600822924, 528734635, 1541459225]

/-- Big-endian byte representation of a number in a fixed width. -/
def toBytesBE : Nat → Nat → List Nat
  | 0, _ => []
  | len + 1, n => toBytesBE len (n / 256) ++ [n % 256]

/-- Group a byte list into 32-bit big-endian words (the byte count is a
multiple of four when called). -/
def bytesToWords : List Nat → List Nat
  | b0 :: b1 :: b2 :: b3 :: rest =>
    (((b0 * 256 + b1) * 256 + b2) * 256 + b3) :: bytesToWords rest
  | _ => []

/-- Split a list into chunks of 64 elements (fueled with the list length
so the recursion is structural). -/
def chunks64Go : Nat → List Nat → List (List Nat)
  | 0, _ => []
  | _ + 1, [] => []
  | fuel + 1, c :: rest => ((c :: rest).take 64) :: chunks64Go fuel ((c :: rest).drop 64)

/-- Split a list into chunks of 64 elements. -/
def chunks64 (l : List Nat) : List (List Nat) := chunks64Go l.length l

/-- SHA-256 padding: append `0x80`, zero bytes to 56 mod 64, then the
bit length as eight big-endian bytes. -/
def shaPad (bytes : List Nat) : List Nat :=
  let l := bytes.length
  let padZeros := (119 - l % 64) % 64
  bytes ++ [0x80] ++ List.replicate padZeros 0 ++ toBytesBE 8 (8 * l)

/-- Message-schedule extension: run `n` more steps over the reversed word
list (head is the most recent word). -/
def shaScheduleGo : Nat → List Nat → List Nat
  | 0, ws => ws
  | n + 1, ws =>
    shaScheduleGo n
      (w32 (smallSigma1 (ws.getD 1 0) + ws.getD 6 0 +
            smallSigma0 (ws.getD 14 0) + ws.getD 15 0) :: ws)

/-- Extend 16 message words to the 64-entry schedule. -/
def shaSchedule (ws : List Nat) : List Nat :=
  (shaScheduleGo 48 ws.reverse).reverse

/-- One compression round. -/
def shaRound (st : List Nat) (kw : Nat × Nat) : List Nat :=
  match st with
  | [a, b, c, d, e, f, g, h] =>
    let t1 := w32 (h + bigSigma1 e + shaCh e f g + kw.1 + kw.2)
    let t2 := w32 (bigSigma0 a + shaMaj a b c)
    [w32 (t1 + t2), a, b, c, w32 (d + t1), e, f, g]
  | other => other

/-- Process one 64-byte block against the running hash state. -/
def shaBlock (hs : List Nat) (block : List Nat) : List Nat :=
  let ws := shaSchedule (bytesToWords block)
  let st := (shaK.zip ws).foldl shaRound hs
  List.zipWith (fun x y => w32 (x + y)) hs st

/-- SHA-256 digest of a byte list, as eight 32-bit words. -/
def sha256Words (bytes : List Nat) : List Nat :=
  (chunks64 (shaPad bytes)).foldl shaBlock shaH0

/-- Lowercase hexadecimal digit. -/
def hexDigit (n : Nat) : Char :=
  if n < 10 then Char.ofNat (48 + n) else Char.ofNat (87 + n)

/-- Lowercase fixed-width hexadecimal rendering. -/
def toHexFixed (width n : Nat) : List Char :=
  (toBytesBE width n).foldr (fun b acc => hexDigit (b / 16) :: hexDigit (b % 16) :: acc) []
    |>.drop 0

/-- UTF-8 encoding of one character (Python `str.encode()`). -/
def utf8EncodeChar (c : Char) : List Nat :=
  let cp := c.toNat
  if cp < 0x80 then [cp]
  else if cp < 0x800 then [0xc0 + cp / 64, 0x80 + cp % 64]
  else if cp < 0x10000 then
    [0xe0 + cp / 4096, 0x80 + cp / 64 % 64, 0x80 + cp % 64]
  else
    [0xf0 + cp / 262144, 0x80 + cp / 4096 % 64, 0x80 + cp / 64 % 64, 0x80 + cp % 64]

/-- UTF-8 encoding of a string. -/
def utf8Encode (s : String) : List Nat := s.data.flatMap utf8EncodeChar

/-- `hashlib.sha256(s.encode()).hexdigest()`. -/
def sha256Hex (s : String) : String :=
  ⟨(sha256Words (utf8Encode s)).flatMap (fun word => toHexFixed 4 word)⟩

/-! ## json.dumps with sort_keys=True (used by ResearchCache._hash_user_context) -/

/-- JSON escaping of one character, following `json.dumps` defaults
(`ensure_ascii=True`): printable ASCII passes through, known control
characters use short escapes, everything else becomes u-escapes
(surrogate pairs above the BMP). -/
def jsonEscapeChar (c : Char) : List Char :=
  if c == '"' then ['\\', '"']
  else if c == '\\' then ['\\', '\\']
  else if c == '\n' then ['\\', 'n']
  else if c == '\t' then ['\\', 't']
  else if c == '\x0d' then ['\\', 'r']
  else if c == '\x08' then ['\\', 'b']
  else if c == '\x0c' then ['\\', 'f']
  else if 32 ≤ c.toNat && c.toNat ≤ 126 then [c]
  else if c.toNat < 65536 then '\\' :: 'u' :: toHexFixed 2 c.toNat
  else
    let v := c.toNat - 65536
    ('\\' :: 'u' :: toHexFixed 2 (55296 + v / 1024)) ++
      ('\\' :: 'u' :: toHexFixed 2 (56320 + v % 1024))

/-- JSON rendering of a string literal. -/
def jsonDumpString (s : String) : String :=
  ⟨('"' :: s.data.flatMap jsonEscapeChar) ++ ['"']⟩

/-- Lexicographic (code-point) strict order on strings, Python `<`. -/
def strLtB : List Char → List Char → Bool
  | [], [] => false
  | [], _ :: _ => true
  | _ :: _, [] => false
  | a :: as, b :: bs =>
    if a.toNat < b.toNat then true
    else if b.toNat < a.toNat then false
    else strLtB as bs

/-- Insert a binding into a key-sorted association list. -/
def insertSortedByKey (p : String × String) : Dict → Dict
  | [] => [p]
  | q :: rest =>
    if strLtB q.1.data p.1.data then q :: insertSortedByKey p rest
    else p :: q :: rest

/-- Sort a dict by key (Python `sorted`; keys are unique). -/
def sortByKey (d : Dict) : Dict := d.foldr insertSortedByKey []

/-- Python `json.dumps(d, sort_keys=True)` for a string-to-string dict:
sorted keys, default separators. -/
def jsonDumpsSorted (d : Dict) : String :=
  String.singleton (Char.ofNat 123) ++
    pyJoin ", " ((sortByKey d).map (fun kv => jsonDumpString kv.1 ++ ": " ++ jsonDumpString kv.2)) ++
    String.singleton (Char.ofNat 125)

/-! ## Research cache (utils/cache.py) -/

/-- The running cache version constant (utils/cache.py line 17). -/
def CACHE_VERSION : String := "1.0"

/-- The `SearchConfig` dataclass fields consulted by the cache
(utils/config_loader.py). -/
structure SearchConfig where
  provider : String
  max_results : Int
  include_domains : List String := []
deriving Repr, DecidableEq

/-- The `CacheMetadata` dataclass (utils/cache.py lines 20-28). -/
structure CacheMetadata where
  version : String
  topic : String
  user_context_hash : String
  search_provider : String
  max_results : Int
  timestamp : String
deriving Repr, DecidableEq

/-- `ResearchCache._normalize_topic`: `topic.strip().lower()`. -/
def normalize_topic (topic : String) : String := pyLower (pyStrip topic)

/-- `ResearchCache._hash_user_context`: empty string for a falsy context
(absent or empty dict), otherwise the first 16 hex characters of the
SHA-256 of the sorted-key JSON dump. -/
def hash_user_context (user_context : Option Dict) : String :=
  match user_context with
  | none => ""
  | some [] => ""
  | some d => ⟨(sha256Hex (jsonDumpsSorted d)).data.take 16⟩

/-- `ResearchCache._sanitize_filename`: keep ASCII alphanumerics, space,
hyphen and underscore (everything else becomes an underscore), replace
spaces with underscores, truncate. Python `isalnum` is Unicode-aware; the
topics in scope are ASCII. -/
def sanitize_filename (text : String) (maxLength : Nat) : String :=
  let sanitized := text.data.map (fun c =>
    if c.isAlphanum || c == ' ' || c == '-' || c == '_' then c else '_')
  let sanitized := sanitized.map (fun c => if c == ' ' then '_' else c)
  ⟨sanitized.take maxLength⟩

/-- `ResearchCache.get_cache_key` (utils/cache.py lines 88-122): join the
normalized topic, the context hash and (when a search config is given) the
provider and max-results with `|`, hash, truncate to 16 hex characters, and
append the filename-sanitized raw topic. -/
def get_cache_key (topic : String) (user_context : Option Dict)
    (search_config : Option SearchConfig) : String :=
  let normalized_topic := normalize_topic topic
  let context_hash := hash_user_context user_context
  let hash_components := [normalized_topic, context_hash] ++
    (match search_config with
     | some cfg => [cfg.provider, toString cfg.max_results]
     | none => [])
  let hash_input := pyJoin "|" hash_components
  let cache_hash : String := ⟨(sha256Hex hash_input).data.take 16⟩
  let sanitized_topic := sanitize_filename topic 30
  cache_hash ++ "_" ++ sanitized_topic

/-- The research payload stored in `research.json` (the dict assembled by
`ResearchAgent.research`, with sources (de)serialized by
`_serialize_search_results` / `_deserialize_search_results`). -/
structure ResearchData where
  sources : List SearchResult
  key_findings : String
  context : String
  search_queries : List String
  user_context : Option Dict := none
deriving Repr, DecidableEq

/-- The on-disk state of one cache entry (the two files under the derived
cache key). The outer `Option` is file existence; the `Except` is the JSON
read: `Except.error` models a file that exists but fails to load. -/
structure CacheEntryState where
  research : Option (Except Unit ResearchData)
  metadata : Option (Except Unit CacheMetadata)

/-- `ResearchCache.cache_exists` (utils/cache.py lines 201-237), with the
file system at the derived key passed explicitly: both files must exist,
the metadata must be readable, and its version must equal `CACHE_VERSION`;
any read error returns false. -/
def cache_exists (st : CacheEntryState) : Bool :=
  match st.research, st.metadata with
  | none, _ => false
  | _, none => false
  | some _, some (Except.error _) => false
  | some _, some (Except.ok md) => md.version == CACHE_VERSION

/-- `ResearchCache.load_research` (utils/cache.py lines 239-273), with the
file system at the derived key passed explicitly: return the parsed
research file if it exists and loads, `none` on a missing file or any read
error. The metadata file is not consulted. -/
def load_research (st : CacheEntryState) : Option ResearchData :=
  match st.research with
  | none => none
  | some (Except.error _) => none
  | some (Except.ok d) => some d

/-! ## More Python string helpers for the parsers -/

/-- Case-insensitive prefix test: `pat` (given lowercase) against the start
of `l` (the `re.IGNORECASE` flag applied to a literal). -/
def ciIsPrefixOf (pat : List Char) (l : List Char) : Bool :=
  (l.take pat.length).map Char.toLower == pat

/-- Python `s.split(pat, 1)`: split at the first occurrence of a
(nonempty) pattern; `none` when the pattern does not occur. -/
def splitOnceSub (pat : List Char) : List Char → Option (List Char × List Char)
  | [] => none
  | c :: rest =>
    if pat.isPrefixOf (c :: rest) then some ([], (c :: rest).drop pat.length)
    else (splitOnceSub pat rest).map (fun p => (c :: p.1, p.2))

/-- Worker for `str.split(pat)` with a nonempty pattern: split at every
non-overlapping occurrence, scanning left to right. Fueled with the text
length so the recursion is structural. -/
def splitSubGo (p : Char) (ps : List Char) : Nat → List Char → List (List Char)
  | 0, l => [l]
  | _ + 1, [] => [[]]
  | fuel + 1, c :: rest =>
    if (p :: ps).isPrefixOf (c :: rest) then
      [] :: splitSubGo p ps fuel (rest.drop ps.length)
    else
      match splitSubGo p ps fuel rest with
      | piece :: more => (c :: piece) :: more
      | [] => [[c]]

/-- Python `s.split(pat)` for a nonempty multi-character pattern. -/
def pySplitSub (s pat : String) : List String :=
  match pat.data with
  | [] => [s]
  | p :: ps => (splitSubGo p ps s.data.length s.data).map (fun l => (⟨l⟩ : String))

/-- Python `s.replace(pat, repl)` for a nonempty pattern (equal to
`repl.join(s.split(pat))`). -/
def pyReplaceSub (s pat repl : String) : String :=
  pyJoin repl (pySplitSub s pat)

/-! ## XML section parsing (utils/xml_parser.py) -/

/-- Scan forward for the first closing `</headline>` or `</title>` tag
(case-insensitive); return the text before it and the rest after it. This
realizes the lazy `(.*?)</(?:headline|title)>` part of the headline
regex. -/
def scanUntilCloseHeadline : List Char → Option (List Char × List Char)
  | [] => none
  | c :: rest =>
    if ciIsPrefixOf "</headline>".data (c :: rest) then
      some ([], (c :: rest).drop 11)
    else if ciIsPrefixOf "</title>".data (c :: rest) then
      some ([], (c :: rest).drop 8)
    else
      (scanUntilCloseHeadline rest).map (fun p => (c :: p.1, p.2))

/-- `re.search` of the headline pattern
`<(?:headline|title)>(.*?)</(?:headline|title)>` with
`re.DOTALL | re.IGNORECASE` (xml_parser.py line 30): the first opening tag
with some closing tag after it; returns group 1. -/
def headlineSearch : List Char → Option (List Char)
  | [] => none
  | c :: rest =>
    if ciIsPrefixOf "<headline>".data (c :: rest) then
      match scanUntilCloseHeadline ((c :: rest).drop 10) with
      | some p => some p.1
      | none => headlineSearch rest
    else if ciIsPrefixOf "<title>".data (c :: rest) then
      match scanUntilCloseHeadline ((c :: rest).drop 7) with
      | some p => some p.1
      | none => headlineSearch rest
    else
      headlineSearch rest

/-- Characters matched by the regex class `\s`. -/
def isReSpace (c : Char) : Bool := pyIsSpaceChar c

/-- Match the opening part
the section-open regex (`section` tag, whitespace, `name=`, a quote of
either kind, one or more non-quote characters, a quote, `>`)
(case-insensitive) at the head of the list; return the raw name characters
and the rest after the `>`. -/
def matchSectionOpen (l : List Char) : Option (List Char × List Char) :=
  if ciIsPrefixOf "<section".data l then
    let l1 := l.drop 8
    let ws := l1.takeWhile isReSpace
    if ws.isEmpty then none
    else
      let l2 := l1.dropWhile isReSpace
      if ciIsPrefixOf "name=".data l2 then
        match l2.drop 5 with
        | q :: l4 =>
          if q == '"' || q == '\x27' then
            let nm := l4.takeWhile (fun c => !(c == '"' || c == '\x27'))
            if nm.isEmpty then none
            else
              match l4.drop nm.length with
              | q2 :: l6 =>
                if q2 == '"' || q2 == '\x27' then
                  match l6 with
                  | '>' :: l7 => some (nm, l7)
                  | _ => none
                else none
              | [] => none
          else none
        | [] => none
      else none
  else none

/-- Scan forward for the first `</section>` (case-insensitive); return the
text before it and the rest after it. -/
def scanUntilCloseSection : List Char → Option (List Char × List Char)
  | [] => none
  | c :: rest =>
    if ciIsPrefixOf "</section>".data (c :: rest) then
      some ([], (c :: rest).drop 10)
    else
      (scanUntilCloseSection rest).map (fun p => (c :: p.1, p.2))

/-- `re.finditer` of the section pattern
the full section regex (the opening part above, a lazy body, and the
closing tag) with
`re.DOTALL | re.IGNORECASE` (xml_parser.py line 43): leftmost matches,
continuing after each full match; returns (raw name, raw content) pairs.
Fueled with the text length (every step advances at least one
character). -/
def findSectionsGo : Nat → List Char → List (List Char × List Char)
  | 0, _ => []
  | _ + 1, [] => []
  | fuel + 1, c :: rest =>
    match matchSectionOpen (c :: rest) with
    | some nmAfter =>
      match scanUntilCloseSection nmAfter.2 with
      | some p => (nmAfter.1, p.1) :: findSectionsGo fuel p.2
      | none => findSectionsGo fuel rest
    | none => findSectionsGo fuel rest

/-- All matches of the section regex in a text. -/
def findSections (l : List Char) : List (List Char × List Char) :=
  findSectionsGo l.length l

/-- Section-name resolution of `parse_xml_sections` (xml_parser.py lines
57-63): first list entry whose lowercase form equals the normalized name
or contains it or is contained in it. -/
def findMatchName (names : List String) (normalized : String) : Option String :=
  names.find? (fun sn =>
    pyLower sn == normalized ||
    pyContains normalized (pyLower sn) ||
    pyContains (pyLower sn) normalized)

/-- `parse_xml_sections` (xml_parser.py lines 9-85): extract the headline
tag pair into `title`/`headline` (whichever is a known name, in that
preference order), then fold the section-tag matches, resolving each
name against the known names and, failing that, the optional original
names, and keeping the normalized literal as key when nothing matches.
Empty trimmed content is dropped. Returns the section dict and the list of
parsed names. (The debug logging of the source is a no-op here.) -/
def parse_xml_sections (article_text : String) (section_names : List String)
    (original_sections : Option (List String)) : Dict × List String :=
  let start : Dict × List String :=
    match headlineSearch article_text.data with
    | some content =>
      let headline_text := pyStrip ⟨content⟩
      if headline_text ≠ "" then
        if section_names.contains "title" then
          (dictInsert [] "title" headline_text, ["title"])
        else if section_names.contains "headline" then
          (dictInsert [] "headline" headline_text, ["headline"])
        else ([], [])
      else ([], [])
    | none => ([], [])
  (findSections article_text.data).foldl (fun acc m =>
    let section_name_raw := pyStrip ⟨m.1⟩
    let section_content := pyStrip ⟨m.2⟩
    if section_content = "" then acc
    else
      let normalized_name := pyReplaceChar ' ' '_' (pyLower section_name_raw)
      let matched₁ := findMatchName section_names normalized_name
      let matched₂ :=
        match matched₁, original_sections with
        | none, some os => if os.isEmpty then none else findMatchName os normalized_name
        | m, _ => m
      match matched₂ with
      | some sn => (dictInsert acc.1 sn section_content, acc.2 ++ [sn])
      | none => (dictInsert acc.1 normalized_name section_content, acc.2 ++ [normalized_name]))
    start

/-- `extract_headline_from_text` (xml_parser.py lines 139-164): the XML
headline tag first, then a `HEADLINE:` line. -/
def extract_headline_from_text (article_text : String) : Option String :=
  let fromTag : Option String :=
    match headlineSearch article_text.data with
    | some content =>
      let h := pyStrip ⟨content⟩
      if h ≠ "" then some h else none
    | none => none
  match fromTag with
  | some h => some h
  | none =>
    match splitOnceSub "HEADLINE:".data article_text.data with
    | some p =>
      let h := pyStrip ⟨p.2.takeWhile (fun c => !(c == '\n'))⟩
      if h ≠ "" then some h else none
    | none => none

/-! ## Template and tone configuration (config_loader data consumed by the agents) -/

/-- One entry of a template structure list: a `section` name and a
`required` flag (field renamed from `section`, a Lean keyword). -/
structure SectionSpec where
  name : String
  required : Bool := true
deriving Repr, DecidableEq

/-- A template configuration: the `structure` list (field renamed, Lean
keyword). -/
structure TemplateConfig where
  sections : List SectionSpec
deriving Repr, DecidableEq

/-- The known section names of a template
(the `section` fields of the structure list). -/
def templateSectionNames (t : TemplateConfig) : List String :=
  t.sections.map (fun s => s.name)

/-- The tone configuration fields read by the agents. -/
structure ToneConfig where
  description : String := ""
  tone : String := ""
  style_guide : List String := []
deriving Repr, DecidableEq

/-! ## Agent-side section parsing with fallbacks
(humanizer_agent.py `_parse_humanized_sections` lines 374-535 and
editor_agent.py `_parse_article_sections` lines 207-338)

The two functions share the XML-first strategy and the legacy fallbacks;
the humanizer variant additionally resolves names against the original
section keys. The `validate_xml_structure` call after a successful XML
parse only logs a warning and does not change the result, so it is a
no-op here. -/

/-- Fallback 1 state: assign an extracted headline to `title` or
`headline` (whichever is known, in that order) and cut everything up to
and including the `HEADLINE:` line out of the remaining text. -/
def headlineFallback (text : String) (section_names : List String) :
    Dict × String :=
  match extract_headline_from_text text with
  | none => ([], text)
  | some headline_text =>
    let d :=
      if section_names.contains "title" then dictInsert [] "title" headline_text
      else if section_names.contains "headline" then dictInsert [] "headline" headline_text
      else []
    let text' :=
      match splitOnceSub "HEADLINE:".data text.data with
      | none => text
      | some p =>
        let linesAfter := pySplitChar '\n' ⟨p.2⟩
        if linesAfter.length > 1 then pyJoin "\n" (linesAfter.drop 1) else ""
    (d, text')

/-- Fallback 2: the legacy `---SECTION:` delimiter format. `useOriginal`
is the humanizer-only second resolution pass over the original section
names. -/
def delimiterFallback (d0 : Dict) (text : String) (section_names : List String)
    (original_sections : Option (List String)) : Dict :=
  let pieces := pySplitSub text "---SECTION:"
  let first_part := pyStrip (pieces.headD "")
  let d1 :=
    if first_part ≠ "" && first_part ≠ "HEADLINE:" then
      if section_names.contains "opening" && !dictContains d0 "opening" then
        dictInsert d0 "opening" first_part
      else if section_names.contains "lead" && !dictContains d0 "lead" then
        dictInsert d0 "lead" first_part
      else d0
    else d0
  (pieces.drop 1).foldl (fun d block =>
    match pySplitChar '\n' block with
    | fstLine :: sndPart :: more =>
      let section_name_line := pyStrip (pyRstripSet ['-'] (pyStrip fstLine))
      let section_content := pyStrip (pyJoin "\n" (sndPart :: more))
      let normalized_marker := pyReplaceChar ' ' '_' (pyLower section_name_line)
      let matched₁ := findMatchName section_names normalized_marker
      let matched₂ :=
        match matched₁, original_sections with
        | none, some os => findMatchName os normalized_marker
        | m, _ => m
      match matched₂ with
      | some sn => dictInsert d sn section_content
      | none => if section_content ≠ "" then dictInsert d normalized_marker section_content else d
    | _ => d) d1

/-- State of the markdown-header walk (fallback 3). -/
structure MdWalkState where
  dict : Dict
  current : Option String
  content : List String

/-- Commit the accumulated lines of the open section, if any. -/
def mdCommit (st : MdWalkState) : Dict :=
  match st.current with
  | some cs =>
    if st.content ≠ [] then dictInsert st.dict cs (pyStrip (pyJoin "\n" st.content))
    else st.dict
  | none => st.dict

/-- One line of the markdown-header fallback walk. `useOriginal` enables
the humanizer-only resolution against original keys, and
`captureLead` enables the humanizer-only treatment of leading plain text
as a title/headline. -/
def mdStep (section_names : List String) (original_sections : Option (List String))
    (captureLead : Bool) (st : MdWalkState) (line : String) : MdWalkState :=
  let ls := pyStrip line
  if pyStartsWith ls "##" then
    let d := mdCommit st
    let header_text := pyStrip (pyReplaceSub ls "##" "")
    let normalized_header := pyReplaceChar ' ' '_' (pyLower header_text)
    let matched₁ := findMatchName section_names normalized_header
    let matched₂ :=
      match matched₁, original_sections with
      | none, some os => findMatchName os normalized_header
      | m, _ => m
    let cs := match matched₂ with
      | some sn => sn
      | none => normalized_header
    ⟨d, some cs, []⟩
  else if pyStartsWith ls "#" then
    let d := mdCommit st
    let header_text := pyStrip (pyReplaceSub ls "#" "")
    let d' :=
      if section_names.contains "title" then dictInsert d "title" header_text
      else if section_names.contains "headline" then dictInsert d "headline" header_text
      else d
    ⟨d', none, []⟩
  else
    match st.current with
    | some _ => ⟨st.dict, st.current, st.content ++ [line]⟩
    | none =>
      if captureLead && ls ≠ "" &&
         !dictContains st.dict "title" && !dictContains st.dict "headline" then
        if section_names.contains "title" then ⟨dictInsert st.dict "title" ls, none, []⟩
        else if section_names.contains "headline" then ⟨dictInsert st.dict "headline" ls, none, []⟩
        else st
      else st

/-- Fallback 3: parse by markdown headers. -/
def markdownFallback (d0 : Dict) (text : String) (section_names : List String)
    (original_sections : Option (List String)) (captureLead : Bool) : Dict :=
  mdCommit ((pySplitChar '\n' text).foldl
    (mdStep section_names original_sections captureLead) ⟨d0, none, []⟩)

/-- `HumanizerAgent._parse_humanized_sections`: XML tags first, then the
headline / legacy-delimiter / markdown-header fallbacks, resolving names
against the template and the original section keys. -/
def parse_humanized_sections (humanized_text : String) (template : TemplateConfig)
    (original_sections : List String) : Dict :=
  let section_names := templateSectionNames template
  let origOpt : Option (List String) :=
    if original_sections.isEmpty then none else some original_sections
  let xml := parse_xml_sections humanized_text section_names origOpt
  if !xml.2.isEmpty then xml.1
  else
    let (d0, text') := headlineFallback humanized_text section_names
    if pyContains text' "---SECTION:" then
      let d := delimiterFallback d0 text' section_names (some original_sections)
      if d ≠ [] then d
      else markdownFallback d0 text' section_names (some original_sections) true
    else
      markdownFallback d0 text' section_names (some original_sections) true

/-- `EditorAgent._parse_article_sections`: the same chain without the
original-keys resolution and without the leading-text title capture. -/
def parse_article_sections (article_text : String) (template : TemplateConfig) :
    Dict :=
  let section_names := templateSectionNames template
  let xml := parse_xml_sections article_text section_names none
  if !xml.2.isEmpty then xml.1
  else
    let (d0, text') := headlineFallback article_text section_names
    if pyContains text' "---SECTION:" then
      let d := delimiterFallback d0 text' section_names none
      if d ≠ [] then d
      else markdownFallback d0 text' section_names none false
    else
      markdownFallback d0 text' section_names none false

/-! ## AI pattern detection (utils/ai_patterns.py) -/

/-- `COMMON_AI_PHRASES` (ai_patterns.py lines 7-62). -/
def COMMON_AI_PHRASES : List String :=
  ["In conclusion",
   "It is important to note",
   "Furthermore",
   "Moreover",
   "Additionally",
   "It should be noted that",
   "It is worth noting that",
   "It is crucial to understand",
   "It is essential to recognize",
   "As we have seen",
   "As previously mentioned",
   "As stated above",
   "In summary",
   "To summarize",
   "In other words",
   "That is to say",
   "Needless to say",
   "It goes without saying",
   "First and foremost",
   "Last but not least",
   "Without a doubt",
   "Undoubtedly",
   "It is clear that",
   "It is evident that",
   "It can be seen that",
   "One can observe that",
   "It is apparent that",
   "This demonstrates that",
   "This indicates that",
   "This suggests that",
   "This highlights the fact that",
   "This underscores the importance of",
   "This serves to",
   "This allows for",
   "This enables",
   "This facilitates",
   "This provides",
   "This offers",
   "This represents",
   "This constitutes",
   "This embodies",
   "This exemplifies",
   "This illustrates",
   "This showcases",
   "This reveals",
   "This unveils",
   "This sheds light on",
   "This brings to light",
   "This draws attention to",
   "This calls attention to",
   "This emphasizes",
   "This reinforces",
   "This validates",
   "This confirms"]

/-- `MEDIA_TYPE_PATTERNS` (ai_patterns.py lines 66-96). -/
def MEDIA_TYPE_PATTERNS : List (String × List String) :=
  [("scientific_journal",
    ["It should be noted that",
     "It is important to note that",
     "As can be seen",
     "It is evident that",
     "This demonstrates",
     "This indicates",
     "This suggests"]),
   ("research_magazine",
    ["It is worth noting",
     "This highlights",
     "This underscores",
     "This reveals",
     "This unveils"]),
   ("tech_news",
    ["It goes without saying",
     "Needless to say",
     "This enables",
     "This allows for",
     "This facilitates"]),
   ("academic_news",
    ["It is important to recognize",
     "This represents",
     "This constitutes",
     "This embodies"])]

/-- `detect_ai_patterns` (ai_patterns.py lines 99-125): count lowercase
occurrences of each catalogued phrase, keeping those with a positive
count; then likewise for the media-type specific phrases. -/
def detect_ai_patterns (text : String) (media_type : Option String) :
    List (String × Nat) :=
  let text_lower := pyLower text
  let common := COMMON_AI_PHRASES.foldl (fun acc phrase =>
    let count := pyCount text_lower (pyLower phrase)
    if count > 0 then acc ++ [(phrase, count)] else acc) []
  match media_type with
  | none => common
  | some mt =>
    match (MEDIA_TYPE_PATTERNS.find? (fun p => p.1 == mt)).map (fun p => p.2) with
    | none => common
    | some phrases =>
      phrases.foldl (fun acc phrase =>
        let count := pyCount text_lower (pyLower phrase)
        if count > 0 then acc ++ [(phrase, count)] else acc) common

/-- Sentence splitting of `analyze_sentence_variation`
(`re.split` on the class `[.!?]+`): maximal runs of `.`, `!`, `?` separate the
pieces. The boolean flag tracks whether the scan is inside such a run, so
that a run of any length produces a single cut. -/
def splitSentencesGo : List Char → List Char → Bool → List (List Char)
  | [], cur, _ => [cur.reverse]
  | c :: rest, cur, inRun =>
    if c == '.' || c == '!' || c == '?' then
      if inRun then splitSentencesGo rest cur true
      else cur.reverse :: splitSentencesGo rest [] true
    else
      splitSentencesGo rest (c :: cur) false

/-- Nonempty stripped sentences of a text. -/
def sentencePieces (text : String) : List String :=
  ((splitSentencesGo text.data [] false).map (fun l => pyStrip ⟨l⟩)).filter (fun s => s ≠ "")

/-- Exact model of the comparison of the `variation_score` field of
`analyze_sentence_variation(text)` with 0.5
(ai_patterns.py lines 177-221): with sentence word counts `xs`, mean `avg`
and variance `var`, the score is `sqrt(var)/avg` when `avg > 0` and `0`
otherwise, so it is below one half iff `var < avg²/4` (or there is nothing
to measure). The Python original computes in floating point; the inputs
in scope are far from the boundary. -/
def variation_score_lt_half (text : String) : Bool :=
  let sentences := sentencePieces text
  match sentences with
  | [] => true
  | _ =>
    let lengths : List ℚ := sentences.map (fun s => ((pySplitWs s).length : ℚ))
    let n : ℚ := (sentences.length : ℚ)
    let avg := lengths.sum / n
    let variance := (lengths.map (fun x => (x - avg) ^ 2)).sum / n
    if 0 < avg then decide (variance < avg ^ 2 / 4) else true

/-! ## Article formatting for the agent prompts -/

/-- The section ordering used by
`HumanizerAgent._format_article_for_humanization` (lines 336-339). -/
def humanizerSectionOrder : List String :=
  ["title", "headline", "subheadline", "abstract", "lead", "opening",
   "introduction", "background", "methodology", "discovery", "achievement",
   "results", "the_story", "discussion", "impact", "why_it_matters",
   "conclusion", "future", "what_next", "context", "recognition"]

/-- The section ordering used by
`EditorAgent._format_article_for_editing` (lines 168-172). -/
def editorSectionOrder : List String :=
  humanizerSectionOrder ++ ["sources", "references"]

/-- `HumanizerAgent._format_article_for_humanization` (lines 324-372):
headline/title first inside a `<headline>` tag pair, then the known
sections in catalogue order, then any remaining sections, each wrapped in
a `<section name=...>` tag pair; `sources`/`references` excluded from the
trailing loop. -/
def format_article_for_humanization (article_dict : Dict) : String :=
  let headlineLines : List String :=
    match dictGet article_dict "headline" with
    | some h => ["<headline>" ++ h ++ "</headline>", ""]
    | none =>
      match dictGet article_dict "title" with
      | some t => ["<headline>" ++ t ++ "</headline>", ""]
      | none => []
  let orderedLines : List String :=
    humanizerSectionOrder.foldl (fun acc sn =>
      if sn == "title" || sn == "headline" then acc
      else
        match dictGet article_dict sn with
        | some raw =>
          let content := pyStrip raw
          if content ≠ "" then
            acc ++ ["<section name=\"" ++ sn ++ "\">", content, "</section>", ""]
          else acc
        | none => acc) []
  let remainingLines : List String :=
    article_dict.foldl (fun acc kv =>
      if humanizerSectionOrder.contains kv.1 ||
         kv.1 == "title" || kv.1 == "headline" ||
         kv.1 == "sources" || kv.1 == "references" then acc
      else
        let content := pyStrip kv.2
        if content ≠ "" then
          acc ++ ["<section name=\"" ++ kv.1 ++ "\">", content, "</section>", ""]
        else acc) []
  pyJoin "\n" (headlineLines ++ orderedLines ++ remainingLines)

/-- `EditorAgent._format_article_for_editing` (lines 156-205): same shape,
with `sources`/`references` excluded from both loops. -/
def format_article_for_editing (article_dict : Dict) : String :=
  let headlineLines : List String :=
    match dictGet article_dict "headline" with
    | some h => ["<headline>" ++ h ++ "</headline>", ""]
    | none =>
      match dictGet article_dict "title" with
      | some t => ["<headline>" ++ t ++ "</headline>", ""]
      | none => []
  let orderedLines : List String :=
    editorSectionOrder.foldl (fun acc sn =>
      if sn == "title" || sn == "headline" || sn == "sources" || sn == "references" then acc
      else
        match dictGet article_dict sn with
        | some raw =>
          let content := pyStrip raw
          if content ≠ "" then
            acc ++ ["<section name=\"" ++ sn ++ "\">", content, "</section>", ""]
          else acc
        | none => acc) []
  let remainingLines : List String :=
    article_dict.foldl (fun acc kv =>
      if editorSectionOrder.contains kv.1 ||
         kv.1 == "title" || kv.1 == "headline" ||
         kv.1 == "sources" || kv.1 == "references" then acc
      else
        let content := pyStrip kv.2
        if content ≠ "" then
          acc ++ ["<section name=\"" ++ kv.1 ++ "\">", content, "</section>", ""]
        else acc) []
  pyJoin "\n" (headlineLines ++ orderedLines ++ remainingLines)

/-! ## Humanizer prompt construction
(`HumanizerAgent._build_humanization_prompt`, humanizer_agent.py lines 115-322) -/

/-- Pass-1 focus text (lines 146-168). -/
def focusPass1Text : String :=
  "CRITICAL FOCUS FOR THIS PASS: Sentence Variation (Perplexity & Burstiness) - BE AGGRESSIVE\n\n1. DRAMATICALLY VARY SENTENCE LENGTH: \n   - Add SHORT punchy sentences (3-8 words) for impact: \"This changes everything.\" \"The implications are huge.\"\n   - Mix with MEDIUM sentences (12-18 words) for flow\n   - Include LONGER complex sentences (25-35 words) for depth\n   - Humans write with WILD variation - break every uniform pattern!\n\n2. VARY SENTENCE STRUCTURE AGGRESSIVELY:\n   - Start some sentences with verbs: \"Consider the implications.\"\n   - Start some with conjunctions: \"But here\x27s the thing.\"\n   - Use fragments for emphasis: \"Not anymore.\"\n   - Alternate simple, compound, complex, and compound-complex sentences\n\n3. CREATE NATURAL RHYTHM:\n   - Break up any sequence of similar-length sentences\n   - Add intentional pauses with shorter sentences\n   - Use longer sentences to build momentum, then break with short ones\n\n4. ADD SENTENCE COMPLEXITY VARIATION:\n   - Some sentences should be dead simple: \"The problem is clear.\"\n   - Others should be nuanced and layered\n   - Vary the complexity within paragraphs"

/-- Low-variation warning appended to the pass-1 focus (line 171). -/
def lowVariationNote : String :=
  "\n\n⚠️ LOW VARIATION DETECTED: The current text has very uniform sentence lengths. DRAMATICALLY increase variation - add many more short sentences and vary lengths aggressively."

/-- Pass-2 focus text (lines 175-197). -/
def focusPass2Text : String :=
  "CRITICAL FOCUS FOR THIS PASS: Remove AI Patterns & Natural Transitions - BE AGGRESSIVE\n\n1. ELIMINATE ALL AI-SOUNDING PHRASES:\n   - Remove: \"In conclusion\", \"It is important to note\", \"Furthermore\", \"Moreover\", \"Additionally\", \"This demonstrates\", \"This indicates\", \"This suggests\", \"It is worth noting\", \"It should be noted\"\n   - Replace with NOTHING (just delete) or natural alternatives: \"Also\" → delete or use context, \"This demonstrates\" → \"This shows\" or delete\n   - Be ruthless - if it sounds like AI wrote it, remove it\n\n2. IMPROVE TRANSITIONS RADICALLY:\n   - Delete formulaic connectors entirely where possible\n   - Use context-based transitions: reference previous content naturally\n   - Start paragraphs with specific details, not generic connectors\n   - Let ideas flow organically without forcing connections\n\n3. REMOVE REPETITIVE STRUCTURES:\n   - If multiple sentences start the same way, rewrite them\n   - Vary paragraph openings dramatically\n   - Break any patterns that feel formulaic\n\n4. USE NATURAL CONNECTORS:\n   - Instead of \"Furthermore\" → delete or use \"Plus\" or \"Also\" or nothing\n   - Instead of \"Moreover\" → delete or use \"What\x27s more\" or nothing\n   - Instead of \"In addition\" → delete or use \"Also\" or nothing\n   - Prefer deleting connectors over replacing them"

/-- Marker line that precedes the detected-phrase list in the pass-2
focus (line 201). -/
def detectedPatternsMarker : String :=
  "\n\n⚠️ DETECTED AI PATTERNS TO REMOVE: "

/-- Tail after the detected-phrase list (line 201). -/
def detectedPatternsTail : String :=
  "\n\nREMOVE ALL OF THESE - be aggressive!"

/-- Pass-3 focus text (lines 205-224). -/
def focusPass3Text : String :=
  "CRITICAL FOCUS FOR THIS PASS: Voice Refinement & Final Polish - BE AGGRESSIVE\n\n1. ADD STRONG PERSONALITY:\n   - Inject natural voice appropriate for the media type\n   - Add personality markers: opinions, asides, natural expressions\n   - Make it sound like a real person wrote this, not a machine\n\n2. REFINE TONE AGGRESSIVELY:\n   - Ensure tone matches publication style throughout\n   - Remove any remaining formal/AI-sounding language\n   - Add appropriate casualness for the media type\n\n3. FINAL POLISH:\n   - Smooth ALL awkward phrasing\n   - Remove any remaining robotic patterns\n   - Ensure every sentence flows naturally\n\n4. ENSURE CONSISTENCY:\n   - Check that voice is consistent throughout\n   - Make sure personality doesn\x27t disappear in later sections"

/-- Intensity note selection (lines 227-232). -/
def intensityNote (intensity : String) : String :=
  if intensity == "low" then
    "Make subtle improvements while preserving most of the original structure."
  else if intensity == "high" then
    "Aggressively transform the text to sound completely human-written, even if it means more significant restructuring."
  else
    "Make noticeable improvements to naturalness while maintaining the core content."

/-- Media-type specific instruction block (lines 263-291). -/
def mediaSpecificInstructions (media_type : String) : String :=
  if media_type == "tech_news" then
    "- Use VERY conversational, forward-looking language - write like you\x27re telling a story to a friend\n- USE CONTRACTIONS FREQUENTLY: it\x27s, that\x27s, we\x27re, don\x27t, can\x27t, won\x27t, they\x27re, you\x27re\n- Use active voice throughout - NO passive voice\n- Make it engaging and accessible - add personality, opinions, natural expressions\n- Avoid ALL overly formal academic language - if it sounds academic, make it casual\n- Add natural asides and observations: \"Here\x27s the thing...\", \"The catch?\", \"Here\x27s why this matters...\"\n- Use shorter paragraphs (2-4 sentences max)\n- Start paragraphs with specific details, not generic statements\n- Add rhetorical questions where appropriate: \"But what does this mean?\"\n- Use natural, everyday language - write like TechCrunch or Wired, not Nature"
  else if media_type == "scientific_journal" then
    "- Maintain formal but natural tone\n- Use precise, evidence-based language\n- Avoid casual contractions\n- Keep technical accuracy while improving flow\n- Natural transitions between concepts"
  else if media_type == "research_magazine" then
    "- Balance accessibility with rigor\n- Use engaging but authoritative voice\n- Natural explanations of complex concepts\n- Smooth narrative flow\n- Connect ideas organically"
  else
    "- Professional but not overly formal\n- Respectful and achievement-focused\n- Natural transitions\n- Clear, readable prose\n- Appropriate for academic audience"

/-- Output-format block of the humanizer prompt (lines 293-320), around
the interpolated pass number. -/
def humanizerOutputFormatPre : String :=
  "\n\nOUTPUT FORMAT - CRITICAL:\nUse XML-style tags to mark sections. These tags are for parsing only and will NOT appear in the final article.\n\nFormat your output EXACTLY like this example:\n\n<headline>The Future of Hardware Prototyping</headline>\n\n<section name=\"opening\">\nEvery hardware engineer has a ghost story. It\x27s the \"reality gap\"—that gut-punch moment when months of perfect digital simulation meet the messy physics of the real world. Picture the scene: You\x27ve spent half a year perfecting a software feature in a flawless digital environment.\n</section>\n\n<section name=\"the_story\">\nThe Physical Twin approach is a massive pivot in how we build things. We\x27ve spent the last decade obsessed with \"Digital Twins\"—virtual clones used to monitor machines that already exist. But the Physical Twin is different. It\x27s about the birth of a product, not its maintenance.\n</section>\n\nCRITICAL FORMATTING RULES:\n- Use <headline>content</headline> for the headline\n- Use <section name=\"section_name\">content</section> for each section\n- NO markdown headers (## or #) in the article body\n- NO bullet points or lists - write in flowing paragraphs\n- Avoid bold/italics unless absolutely necessary\n- Write as one continuous narrative that flows smoothly from section to section\n- Each section\x27s content should flow naturally into the next section\n\nTransform the article now, applying the focus area for pass "

/-- Tail of the humanizer prompt after the pass number. -/
def humanizerOutputFormatPost : String :=
  " while preserving all factual content and structure as one flowing narrative using the XML format shown above.\n"

/-- Assembly of the humanizer prompt around the pass-specific focus block:
the f-string of lines 234-260 followed by the media-specific block and the
output-format block. -/
def humanizerPromptAssemble (tone_description focus intensity_note toneLine
    styleLine article_text media_type : String) (pass_num : Nat) : String :=
  "You are an expert editor specializing in transforming AI-generated text into natural, human-written content for " ++
    tone_description ++ " publications.\n\n" ++ focus ++
    "\n\nINTENSITY LEVEL: " ++ intensity_note ++
    "\n\nMEDIA TYPE CONTEXT:\n- Tone: " ++ toneLine ++
    "\n- Style Guidelines: " ++ styleLine ++
    "\n\nORIGINAL ARTICLE:\n" ++ article_text ++
    "\n\nHUMANIZATION REQUIREMENTS:\n1. PRESERVE ALL FACTUAL CONTENT: Do not change facts, data, names, or key information\n2. MAINTAIN ARTICLE STRUCTURE: Keep all sections intact but write as continuous flowing narrative\n3. PRESERVE MEANING: The core message and meaning must remain identical\n4. APPLY FOCUS AREA: Follow the critical focus instructions above for this pass\n5. NATURAL LANGUAGE: Write as a professional human journalist/researcher would\n6. AVOID AI PATTERNS: Eliminate robotic, formulaic, or AI-sounding language\n7. MEDIA TYPE APPROPRIATE: Match the tone and style for " ++
    media_type ++
    "\n8. NO SECTION HEADERS: Write as one continuous flowing article without headers\n9. NO BULLET POINTS: Use flowing paragraphs instead\n10. AVOID BOLD/ITALICS: Only use if absolutely necessary for emphasis\n\nSPECIFIC INSTRUCTIONS FOR " ++
    media_type ++ ":\n" ++
    mediaSpecificInstructions media_type ++
    humanizerOutputFormatPre ++ toString pass_num ++ humanizerOutputFormatPost

/-- `HumanizerAgent._build_humanization_prompt`: the pass-specific focus
block (pass 1 with the optional low-variation warning, pass 2 with the
optional detected-phrase list, pass 3 otherwise), the intensity note, the
tone context, the formatted article, the fixed requirements, the
media-specific instructions, and the output-format block. The
`template_config` argument of the source is unused there and omitted
here. `variation_lt_half` is `some b` when a metrics dict was passed,
`b` being the model of its score comparison with 0.5. -/
def build_humanization_prompt (article_dict : Dict) (media_type : String)
    (tone : ToneConfig) (pass_num : Nat)
    (detected_patterns : Option (List (String × Nat)))
    (variation_lt_half : Option Bool) (intensity : String) : String :=
  let article_text := format_article_for_humanization article_dict
  let tone_description := tone.description
  let style_guide := tone.style_guide
  let focus :=
    if pass_num == 1 then
      focusPass1Text ++
        (match variation_lt_half with
         | some true => lowVariationNote
         | _ => "")
    else if pass_num == 2 then
      focusPass2Text ++
        (match detected_patterns with
         | some (p :: rest) =>
           detectedPatternsMarker ++
             pyJoin ", " (((p :: rest).take 15).map (fun q => q.1)) ++
             detectedPatternsTail
         | _ => "")
    else focusPass3Text
  humanizerPromptAssemble tone_description focus (intensityNote intensity)
    tone.tone (pyJoin ", " (style_guide.take 5)) article_text media_type pass_num

/-! ## The humanize run (`HumanizerAgent.humanize`, lines 35-113)

The generation provider is an oracle `gen : Nat → Except Unit String`
giving the outcome of the n-th `generate` call (`Except.error` models a
raised exception). The run returns the list of prompts issued, in order,
together with the outcome: the final merged dict on success, or the
propagated exception. -/

/-- The multi-pass loop (lines 78-103): build the prompt for the current
pass (patterns and variation metrics are only passed on pass 1), call the
provider, parse, continue; an exception propagates immediately. The text
and variation recomputation at lines 100-103 feeds no later use and is
dropped. -/
def humanizePassLoop (gen : Nat → Except Unit String) (origKeys : List String)
    (media_type : String) (tone : ToneConfig) (template : TemplateConfig)
    (intensity : String) (patterns : List (String × Nat)) (varLtHalf : Bool) :
    Nat → Nat → Dict → List String × Except Unit Dict
  | 0, _, current => ([], Except.ok current)
  | remaining + 1, pass_num, current =>
    let prompt := build_humanization_prompt current media_type tone pass_num
      (if pass_num == 1 then some patterns else none)
      (if pass_num == 1 then some varLtHalf else none)
      intensity
    match gen (pass_num - 1) with
    | Except.error e => ([prompt], Except.error e)
    | Except.ok humanized_text =>
      let next := parse_humanized_sections humanized_text template origKeys
      let res := humanizePassLoop gen origKeys media_type tone template intensity
        patterns varLtHalf remaining (pass_num + 1) next
      (prompt :: res.1, res.2)

/-- Clamping of the `passes` constructor argument
(`max(1, min(3, passes))`, line 32). -/
def clampPasses (p : Int) : Nat := (max 1 (min 3 p)).toNat

/-- `HumanizerAgent.humanize`: return the input unchanged when disabled;
otherwise analyze the input text once, run the passes, and merge the final
parsed dict against the original input. The first component is the list of
prompts sent to the provider. -/
def humanizeRun (gen : Nat → Except Unit String) (enabled : Bool) (passes : Nat)
    (intensity : String) (article_dict : Dict) (media_type : String)
    (tone : ToneConfig) (template : TemplateConfig) :
    List String × Except Unit Dict :=
  if !enabled then ([], Except.ok article_dict)
  else
    let article_text := format_article_for_humanization article_dict
    let patterns := detect_ai_patterns article_text (some media_type)
    let varLtHalf := variation_score_lt_half article_text
    let res := humanizePassLoop gen (dictKeys article_dict) media_type tone template
      intensity patterns varLtHalf passes 1 article_dict
    (res.1, res.2.map (fun current => mergeSections article_dict current))

/-- The humanize step of `ArticlePipeline.generate` (pipeline.py lines
195-227): run the humanizer when enabled, fall back to the edited dict on
an exception, then delete any `sources`/`references` keys. -/
def pipelineHumanizeStep (gen : Nat → Except Unit String) (enabled : Bool)
    (passes : Nat) (intensity : String) (edited_dict : Dict)
    (media_type : String) (tone : ToneConfig) (template : TemplateConfig) : Dict :=
  let humanized_dict :=
    if enabled then
      match (humanizeRun gen enabled passes intensity edited_dict media_type tone template).2 with
      | Except.ok d => d
      | Except.error _ => edited_dict
    else edited_dict
  dictRemove (dictRemove humanized_dict "sources") "references"

/-! ## Editor agent (`EditorAgent`, editor_agent.py) -/

/-- `EditorAgent._build_editing_prompt` (lines 74-154). -/
def build_editing_prompt (article_dict : Dict) (tone : ToneConfig)
    (fact_check : Bool) : String :=
  let article_text := format_article_for_editing article_dict
  let tone_description := tone.description
  let style_guide := tone.style_guide
  "You are an experienced editor reviewing an article for a " ++ tone_description ++
    " publication.\n\nYour task is to refine this article to ensure it:\n1. Reads naturally and human-like (not AI-generated)\n2. Maintains consistent tone: " ++
    tone.tone ++
    "\n3. Has smooth transitions between sections\n4. Uses natural language and avoids clichés\n5. Is factually accurate (if fact-checking is enabled)\n6. Follows style guidelines: " ++
    pyJoin ", " (style_guide.take 3) ++
    "\n\nORIGINAL ARTICLE:\n" ++ article_text ++
    "\n\nEDITING INSTRUCTIONS:\n- Preserve the article structure and all sections\n- Improve flow and readability - maintain smooth transitions between sections\n- Remove any AI-sounding phrases or patterns\n- Ensure the writing feels authentic and human-written\n- Maintain the original meaning and key points\n- Fix any awkward phrasing or transitions\n- Ensure consistency in style throughout\n- NO section headers in the output - write as continuous flowing narrative\n- NO bullet points or lists - use flowing paragraphs\n- Avoid bold or italics unless absolutely necessary\n" ++
    (if fact_check then "- Verify factual claims are accurate" else "") ++
    "\n\nOUTPUT FORMAT - CRITICAL:\nUse XML-style tags to mark sections. These tags are for parsing only and will NOT appear in the final article.\n\nFormat your output EXACTLY like this example:\n\n<headline>The Future of Hardware Prototyping</headline>\n\n<section name=\"opening\">\nEvery hardware engineer has a ghost story. It\x27s the \"reality gap\"—that gut-punch moment when months of perfect digital simulation meet the messy physics of the real world. Picture the scene: You\x27ve spent half a year perfecting a software feature in a flawless digital environment.\n</section>\n\n<section name=\"the_story\">\nThe Physical Twin approach is a massive pivot in how we build things. We\x27ve spent the last decade obsessed with \"Digital Twins\"—virtual clones used to monitor machines that already exist. But the Physical Twin is different. It\x27s about the birth of a product, not its maintenance.\n</section>\n\n<section name=\"why_it_matters\">\nAs products get smarter and more connected, the cost of a manufacturing mistake has become catastrophic. The Physical Twin is essentially an insurance policy against the limits of pure simulation.\n</section>\n\nCRITICAL FORMATTING RULES:\n- Use <headline>content</headline> for the headline\n- Use <section name=\"section_name\">content</section> for each section\n- NO markdown headers (## or #) in the article body\n- NO bullet points or lists - write in flowing paragraphs\n- Write as one continuous narrative that flows smoothly from section to section\n- Each section\x27s content should flow naturally into the next section\n\nEdit the entire article now, maintaining all sections but improving quality and human-like flow as one continuous narrative using the XML format shown above.\n"

/-- `EditorAgent.edit` (lines 25-72): one generation call on the editing
prompt, parse the response, and merge against the input map; a provider
exception propagates (the pipeline, not the agent, falls back). -/
def editRun (gen : String → Except Unit String) (article_dict : Dict)
    (tone : ToneConfig) (template : TemplateConfig) (fact_check : Bool) :
    Except Unit Dict :=
  let prompt := build_editing_prompt article_dict tone fact_check
  match gen prompt with
  | Except.error e => Except.error e
  | Except.ok edited_text =>
    Except.ok (mergeSections article_dict (parse_article_sections edited_text template))

/-! ## Hand-compiled matchers for the fixed regexes of utils/formatter.py

Each `re.sub(pattern, "", s)` of the source is realized by a single
left-to-right scan replacing non-overlapping matches, with a dedicated
match-at-position function per pattern (the patterns use no features
beyond literals, `[^...]` classes, `\s`, `\w`, lazy dot and line-bound
dot, so each compiles to a deterministic matcher). -/

/-- Regex `\w` (ASCII model; the snippets in scope are ASCII). -/
def isWordChar (c : Char) : Bool := c.isAlphanum || c == '_'

/-- Generic single-pass substitution driver: at each position, if the
matcher yields a (positive) match length, drop it and continue after it;
fueled with the text length. -/
def reSubGo (matchAt : List Char → Option Nat) : Nat → List Char → List Char
  | 0, l => l
  | _ + 1, [] => []
  | fuel + 1, c :: rest =>
    match matchAt (c :: rest) with
    | some (n + 1) => reSubGo matchAt fuel ((c :: rest).drop (n + 1))
    | _ => c :: reSubGo matchAt fuel rest

/-- Run a substitution (deleting every match) over a string. -/
def reSubDelete (matchAt : List Char → Option Nat) (s : String) : String :=
  ⟨reSubGo matchAt s.data.length s.data⟩

/-- Matcher for a case-insensitive literal (`pat` given lowercase). -/
def matchLitCI (pat : String) (l : List Char) : Option Nat :=
  if ciIsPrefixOf pat.data l then some pat.data.length else none

/-- Matcher for `pat.*` (case-insensitive literal, then the rest of the
line: `.` does not cross a newline). -/
def matchLitEolCI (pat : String) (l : List Char) : Option Nat :=
  if ciIsPrefixOf pat.data l then
    some (pat.data.length +
      ((l.drop pat.data.length).takeWhile (fun c => !(c == '\n'))).length)
  else none

/-- Matcher for `\[.*?\]`: a bracket pair closed on the same line. -/
def matchBracketSpan (l : List Char) : Option Nat :=
  match l with
  | '[' :: rest =>
    let inner := rest.takeWhile (fun c => !(c == ']') && !(c == '\n'))
    match rest.drop inner.length with
    | ']' :: _ => some (inner.length + 2)
    | _ => none
  | _ => none

/-- Matcher for `by\s+\w+.*` (case-insensitive): `by`, whitespace, a word,
then the rest of that line. -/
def matchByLine (l : List Char) : Option Nat :=
  if ciIsPrefixOf "by".data l then
    let l2 := l.drop 2
    let ws := l2.takeWhile isReSpace
    if ws.isEmpty then none
    else
      let l3 := l2.drop ws.length
      let w := l3.takeWhile isWordChar
      if w.isEmpty then none
      else
        some (2 + ws.length + w.length +
          ((l3.drop w.length).takeWhile (fun c => !(c == '\n'))).length)
  else none

/-- Matcher for `<[^>]+>` (HTML tag removal). -/
def matchHtmlTag (l : List Char) : Option Nat :=
  match l with
  | '<' :: rest =>
    let inner := rest.takeWhile (fun c => !(c == '>'))
    if inner.isEmpty then none
    else
      match rest.drop inner.length with
      | '>' :: _ => some (inner.length + 2)
      | _ => none
  | _ => none

/-- The `navigation_patterns` of `clean_source_snippet` (formatter.py
lines 211-229), compiled in order. `Home.*?` and `Menu.*?` have a lazy
dot with nothing after it, so they match the bare literal. -/
def navigationMatchers : List (List Char → Option Nat) :=
  [matchLitCI "skip to main content",
   matchLitCI "skip to content",
   matchLitEolCI "search in:",
   matchLitCI "advanced search",
   matchBracketSpan,
   matchLitCI "home",
   matchLitCI "menu",
   matchLitEolCI "font type:",
   matchLitCI "open accessarticle",
   matchByLine,
   matchLitEolCI "hostname:",
   matchLitEolCI "total loading time:",
   matchLitEolCI "render date:",
   matchLitEolCI "has data issue:",
   matchLitEolCI "hascontentissue",
   matchLitCI "article menu",
   matchLitCI "## article menu"]

/-- The `skip_patterns` of the line filter in `clean_source_snippet`
(formatter.py lines 242-251). -/
def snippetSkipPatterns : List String :=
  ["skip to", "search", "menu", "home", "hostname", "render date", "font type",
   "next article", "previous article", "journals", "about", "copyright",
   "thank you for visiting", "you are using a browser", "limited support",
   "cookie", "privacy", "terms", "sign in", "log in", "register",
   "vol.:", "original article", "published:", "received:", "doi:",
   "arxiv:", "computer science", "title:", "author:", "abstract:",
   "introduction", "conclusion", "references", "keywords:",
   "full article", "read more", "continue reading"]

/-- Collapse runs of whitespace to single spaces (`re.sub` replacing the
class `\s+` by one space). -/
def collapseWsGo : List Char → Bool → List Char
  | [], _ => []
  | c :: rest, inRun =>
    if isReSpace c then
      if inRun then collapseWsGo rest true
      else ' ' :: collapseWsGo rest true
    else c :: collapseWsGo rest false

/-- Python `s.rfind(pat)`: highest index of an occurrence, `-1` if none. -/
def pyRfind (s pat : String) : Int :=
  match ((List.range (s.data.length + 1)).filter
      (fun i => pat.data.isPrefixOf (s.data.drop i))).getLast? with
  | some i => (i : Int)
  | none => -1

/-- The line filter of `clean_source_snippet` (formatter.py lines
233-264): keep a stripped line unless it is empty, matches a skip pattern,
is short, is URL-heavy, or is a markdown artifact. -/
def snippetKeepLine (line : String) : Option String :=
  let l := pyStrip line
  if l == "" then none
  else if snippetSkipPatterns.any (fun pat => pyContains (pyLower l) pat) then none
  else if l.data.length < 10 then none
  else if pyCount l "http" > 1 || (pyStartsWith l "http" && l.data.length < 50) then none
  else if (pyStartsWith l "![" || pyStartsWith l "](" || pyStartsWith l "*") &&
          (pyContains l "http" && l.data.length < 100) then none
  else some l

/-- `clean_source_snippet` (formatter.py lines 195-285): strip HTML tags,
delete the navigation patterns, filter the lines, collapse whitespace, and
truncate toward a sentence boundary at 250 characters. -/
def clean_source_snippet (snippet : String) : String :=
  if snippet == "" then ""
  else
    let s1 := reSubDelete matchHtmlTag snippet
    let s2 := navigationMatchers.foldl (fun s m => reSubDelete m s) s1
    let cleaned_lines := (pySplitChar '\n' s2).filterMap snippetKeepLine
    let s3 := pyJoin " " cleaned_lines
    let s4 := pyStrip ⟨collapseWsGo s3.data false⟩
    if s4.data.length > 250 then
      let truncated : String := ⟨s4.data.take 247⟩
      let last_period := pyRfind truncated "."
      let last_space := pyRfind truncated " "
      if last_period > 200 then ⟨truncated.data.take (last_period.toNat + 1)⟩
      else if last_space > 200 then (⟨truncated.data.take last_space.toNat⟩ : String) ++ "..."
      else truncated ++ "..."
    else s4

/-- The ending-truncation loop of `clean_source_url` (formatter.py lines
146-153): the first listed ending that occurs with positive `rfind` index
truncates after it; an ending occurring only at index zero falls through
to the next. -/
def truncateAtEnding : List String → String → String
  | [], url => url
  | e :: rest, url =>
    if pyContains url e then
      let idx := pyRfind url e
      if idx > 0 then ⟨url.data.take (idx.toNat + e.data.length)⟩
      else truncateAtEnding rest url
    else truncateAtEnding rest url

/-- `clean_source_url` (formatter.py lines 122-192): repair unbalanced
parentheses, strip trailing punctuation, default the scheme to https, and
reassemble the parsed URL without its fragment. The parse failure branch
of the source is the bracket-mismatch case of `pyUrlparse`. -/
def clean_source_url (url0 : String) : String :=
  if url0 == "" || url0 == "#" then "#"
  else
    let url1 := pyStrip url0
    let openParens := pyCount url1 "("
    let closeParens := pyCount url1 ")"
    let url2 :=
      if openParens > closeParens then
        if !([")", ".", "/", "html", "pdf", "htm", "php", "asp", "aspx"].any
              (fun e => pyEndsWith url1 e)) then
          let t := truncateAtEnding [".html", ".pdf", ".htm", ".php", ".asp", ".aspx", "/"] url1
          t ++ ⟨List.replicate (openParens - closeParens) ')'⟩
        else
          url1 ++ ⟨List.replicate (openParens - closeParens) ')'⟩
      else url1
    let url3 := pyRstripSet ['.', ',', ';', ':', '!', '?'] url2
    match pyUrlparse url3 with
    | some parsed =>
      let (url4, parsed') :=
        if parsed.scheme == "" then
          let u := "https://" ++ url3
          (u, pyUrlparse u)
        else (url3, some parsed)
      match parsed' with
      | some p =>
        if p.netloc == "" then pyRstripSet ['.', ',', ';', ':', '!', '?', ')'] url4
        else pyUrlunparse p.scheme (pyLower p.netloc) p.path p.params p.query ""
      | none =>
        let cleaned := pyRstripSet ['.', ',', ';', ':', '!', '?', ')'] url4
        if pyStartsWith cleaned "http://" || pyStartsWith cleaned "https://" then cleaned
        else "#"
    | none =>
      let cleaned := pyRstripSet ['.', ',', ';', ':', '!', '?', ')'] url3
      if pyStartsWith cleaned "http://" || pyStartsWith cleaned "https://" then cleaned
      else "#"

/-! ## format_sources (utils/formatter.py lines 311-384) and the sources
formatter agent (agents/sources_formatter_agent.py) -/

/-- A source entry as the pipeline passes it to the formatters: a dict
with `title`, `url` and `snippet` keys (pipeline.py lines 248-262). -/
structure SourceRec where
  title : String
  url : String
  snippet : String
deriving Repr, DecidableEq

/-- The title-prefix alternatives of
`^(Full article|Article|Paper|Research|Study):\s*`. -/
def titleAlts : List String := ["Full article", "Article", "Paper", "Research", "Study"]

/-- Strip the title-type prefix (first matching alternative, then the
colon and following whitespace), case-insensitively, anchored at the
start. -/
def stripTitleTypeLead (t : String) : String :=
  match titleAlts.find? (fun alt => ciIsPrefixOf ((pyLower alt).data ++ [':']) t.data) with
  | some alt => ⟨(t.data.drop (alt.data.length + 1)).dropWhile isReSpace⟩
  | none => t

/-- Match length of `^\[.*?\]\s*`: a bracket pair closed on the first
line (lazy: the first `]`), then trailing whitespace. -/
def matchLeadingBracketWs (l : List Char) : Option Nat :=
  match l with
  | '[' :: r =>
    let lineLen := (r.takeWhile (fun c => !(c == '\n'))).length
    match (List.range lineLen).find? (fun j => r.getD j ' ' == ']') with
    | some j => some (1 + j + 1 + ((r.drop (j + 1)).takeWhile isReSpace).length)
    | none => none
  | _ => none

/-- Strip a leading markdown-bracket span from a title
(`re.sub` deleting the leading match of `^\[.*?\]\s*`). -/
def stripTitleBracketLead (t : String) : String :=
  match matchLeadingBracketWs t.data with
  | some n => ⟨t.data.drop n⟩
  | none => t

/-- The long-title truncation of `format_sources` (lines 357-364). -/
def truncateTitle (title : String) : String :=
  if title.data.length > 120 then
    let truncated : String := ⟨title.data.take 117⟩
    let last_space := pyRfind truncated " "
    if last_space > 100 then (⟨truncated.data.take last_space.toNat⟩ : String) ++ "..."
    else truncated ++ "..."
  else title

/-- Does `\s*\(https?://[^\s]+\)\s*$` match this whole suffix? The closing
parenthesis must be the last non-whitespace character. -/
def endParenUrlMatch (l : List Char) : Bool :=
  let l1 := l.dropWhile isReSpace
  match l1 with
  | '(' :: r =>
    let afterScheme :=
      if "http://".data.isPrefixOf r then some (r.drop 7)
      else if "https://".data.isPrefixOf r then some (r.drop 8)
      else none
    match afterScheme with
    | none => false
    | some r2 =>
      let run := r2.takeWhile (fun c => !isReSpace c)
      (r2.drop run.length).all isReSpace && run.length ≥ 2 && run.getLast? == some ')'
  | _ => false

/-- Does `\(.*?\)\s*$` match this whole suffix? -/
def parenLazyEndMatch (l : List Char) : Bool :=
  match l with
  | '(' :: r =>
    let lineLen := (r.takeWhile (fun c => !(c == '\n'))).length
    ((List.range lineLen).filter (fun j => r.getD j ' ' == ')')).any
      (fun j => (r.drop (j + 1)).all isReSpace)
  | _ => false

/-- Does `\s*\[.*?\]\(.*?\)\s*$` match this whole suffix? -/
def bracketLinkEndMatch (l : List Char) : Bool :=
  let l1 := l.dropWhile isReSpace
  match l1 with
  | '[' :: r =>
    let lineLen := (r.takeWhile (fun c => !(c == '\n'))).length
    ((List.range lineLen).filter (fun j => r.getD j ' ' == ']')).any
      (fun j => parenLazyEndMatch (r.drop (j + 1)))
  | _ => false

/-- Delete the leftmost end-anchored match of a pattern
(`re.sub` with an end-anchored pattern, deleting the match). -/
def stripTrailingMatch (matchFull : List Char → Bool) (s : String) : String :=
  match (List.range (s.data.length + 1)).find? (fun i => matchFull (s.data.drop i)) with
  | some i => ⟨s.data.take i⟩
  | none => s

/-- The deduplication loop of `format_sources` (lines 323-331): keep a
source only if its normalized url is nonempty and unseen. -/
def dedupSourceRecsGo (seen : List String) : List SourceRec → List SourceRec
  | [] => []
  | s :: rest =>
    let n := normalize_url_for_dedup s.url
    if n ≠ "" && !seen.contains n then s :: dedupSourceRecsGo (n :: seen) rest
    else dedupSourceRecsGo seen rest

/-- One numbered entry of the sources block (lines 340-382). -/
def formatSourceEntry (i : Nat) (source : SourceRec) : List String :=
  let url := clean_source_url source.url
  let snippet := clean_source_snippet source.snippet
  let title0 := pyStrip source.title
  let title1 := stripTitleTypeLead title0
  let title2 := pyStrip (stripTitleBracketLead title1)
  let title := truncateTitle title2
  let item := toString (i + 1) ++ ". [" ++ title ++ "](" ++ url ++ ")"
  let snippetLines :=
    if snippet ≠ "" && (pyStrip snippet).data.length > 20 then
      let sc0 := pyStrip snippet
      let sc1 := stripTrailingMatch endParenUrlMatch sc0
      let sc2 := stripTrailingMatch bracketLinkEndMatch sc1
      if (pyStrip sc2).data.length > 20 then ["   " ++ sc2] else []
    else []
  [item] ++ snippetLines ++ [""]

/-- `format_sources` (formatter.py lines 311-384): the deterministic
fallback formatter. Empty input or an all-filtered dedup yields the empty
string; otherwise a `## Sources` header and the numbered entries. -/
def format_sources (sources : List SourceRec) : String :=
  if sources.isEmpty then ""
  else
    let unique_sources := dedupSourceRecsGo [] sources
    if unique_sources.isEmpty then ""
    else
      pyJoin "\n" (["## Sources", ""] ++
        (unique_sources.enum.foldr (fun p acc => formatSourceEntry p.1 p.2 ++ acc) []))

/-- `SourcesFormatterAgent._parse_formatted_output` (lines 193-277): cut
the output at the `## Sources` header line (or keep all of it), reject
minimal output in favour of the fallback, and ensure a header. -/
def parse_formatted_output (formatted_output : String)
    (original_sources : List SourceRec) : String :=
  let lines := pySplitChar '\n' formatted_output
  let sources_start :=
    match lines.findIdx? (fun ln => pyContains ln "## Sources" || pyContains ln "## SOURCES") with
    | some i => i
    | none => 0
  let formatted := pyStrip (pyJoin "\n" (lines.drop sources_start))
  if formatted == "" || formatted.data.length < 50 then format_sources original_sources
  else if !pyStartsWith formatted "##" then "## Sources\n\n" ++ formatted
  else formatted

/-- `SourcesFormatterAgent.format_sources` (lines 25-120) with the
generation outcome passed in: empty input yields the empty string, a
raised generation exception or an empty/whitespace response falls back to
the deterministic formatter, and otherwise the response is parsed and
validated. (The debug-log blocks of the source are I/O no-ops.) -/
def agent_format_sources (sources : List SourceRec)
    (genResult : Except Unit String) : String :=
  if sources.isEmpty then ""
  else
    match genResult with
    | Except.error _ => format_sources sources
    | Except.ok formatted_output =>
      if formatted_output == "" || pyStrip formatted_output == "" then
        format_sources sources
      else parse_formatted_output formatted_output sources

/-- The source-formatting step of `ArticlePipeline.generate` (pipeline.py
lines 238-332): when source inclusion is enabled and sources exist,
convert them to title/url/snippet records, run the agent formatter, fall
back to `format_sources` when the result is empty or shorter than 50
characters once stripped, and append the block if (and only if) it is
nonempty. The returned value is the appended block, if any. -/
def pipelineSourcesBlock (include_sources : Bool)
    (research_sources : List SearchResult) (genResult : Except Unit String) :
    Option String :=
  if include_sources && !research_sources.isEmpty then
    let sources_list := research_sources.map (fun s => SourceRec.mk s.title s.url s.snippet)
    let sources_markdown := agent_format_sources sources_list genResult
    let sources_markdown' :=
      if sources_markdown == "" || (pyStrip sources_markdown).data.length < 50 then
        format_sources sources_list
      else sources_markdown
    if sources_markdown' ≠ "" then some sources_markdown' else none
  else none

/-! ## Theorems -/

set_option maxRecDepth 400000

/-- Left cancellation for string append. -/
theorem stringAppendLeftCancel (a b c : String) (h : a ++ b = a ++ c) : b = c := by
  have h2 := congrArg String.data h
  simp only [String.data_append] at h2
  exact String.ext (List.append_cancel_left h2)

/-- Python membership agrees with lookup success on dicts. -/
theorem dictContains_eq_isSome (d : Dict) (k : String) :
    dictContains d k = (dictGet d k).isSome := by
  induction d with
  | nil => rfl
  | cons p rest ih =>
    by_cases h : p.1 == k
    · simp [dictContains, dictGet, List.any, List.find?, h]
    · simp only [dictContains, dictGet, List.any, List.find?, h] at ih ⊢
      simp only [Bool.false_or]
      exact ih

/-- The merge keeps exactly the keys of its first argument, in order. -/
theorem dictKeys_mergeSections (m p : Dict) :
    dictKeys (mergeSections m p) = dictKeys m := by
  induction m with
  | nil => rfl
  | cons kv rest ih =>
    simp only [mergeSections, dictKeys, List.map_cons] at ih ⊢
    rw [ih]

/-- C5: merge safety for the Editor and Humanizer stages. `mergeSections`
is the section-by-section merge loop both agents run on their parser
output (editor_agent.py lines 64-72, humanizer_agent.py lines 105-113):
for every input map `m` and parser output `p`, the merged map binds every
key of `m`, to the value of `p` where `p` defines that key and to the
value of `m` otherwise. -/
theorem C5_merge_safety (m p : Dict) (k v : String)
    (h : dictGet m k = some v) :
    dictGet (mergeSections m p) k = some ((dictGet p k).getD v) := by
  induction m with
  | nil => simp [dictGet] at h
  | cons kv rest ih =>
    by_cases hk : kv.1 == k
    · have hkeq : kv.1 = k := by simpa using hk
      subst hkeq
      have hv : kv.2 = v := by simpa [dictGet, List.find?, hk] using h
      subst hv
      simp only [mergeSections, List.map_cons, dictGet, List.find?, hk]
      rw [dictContains_eq_isSome]
      cases hf : List.find? (fun q => q.1 == kv.1) p with
      | none =>
        have hg : dictGet p kv.1 = none := by simp [dictGet, hf]
        simp [hg]
      | some q =>
        have hg : dictGet p kv.1 = some q.2 := by simp [dictGet, hf]
        simp [hg]
    · simp only [dictGet, List.find?, hk, cond_false] at h
      simp only [mergeSections, dictGet, List.find?, List.map_cons, hk, cond_false] at ih ⊢
      exact ih h

/-- Witness for C5 at a concrete merge. -/
theorem C5_merge_safety_witness :
    dictGet [("opening", "old"), ("impact", "keep")] "opening" = some "old" ∧
    dictGet (mergeSections [("opening", "old"), ("impact", "keep")] [("opening", "new")])
        "opening" =
      some ((dictGet [("opening", "new")] "opening").getD "old") :=
  ⟨by decide,
   C5_merge_safety [("opening", "old"), ("impact", "keep")] [("opening", "new")]
     "opening" "old" (by decide)⟩

/-- C6: the tag strategy of the Section Parser on the spec scenario: the
input with one headline tag pair and one named section tag pair, against
the known names `headline` and `opening`, yields exactly that map and
that matched-name list. -/
theorem C6_tag_strategy_scenario :
    parse_xml_sections "<headline>X</headline><section name=\"opening\">Y</section>"
        ["headline", "opening"] none =
      ([("headline", "X"), ("opening", "Y")], ["headline", "opening"]) := by
  decide

/-- C9: implicit key-set preservation. A successful Editor `edit` and a
successful enabled Humanizer `humanize` return a map with exactly the key
list of the input map: parser-invented sections are discarded by the
merge, and no input key is dropped. -/
theorem C9_key_set_preservation :
    (∀ (gen : String → Except Unit String) (m : Dict) (tone : ToneConfig)
        (template : TemplateConfig) (fc : Bool) (d : Dict),
      editRun gen m tone template fc = Except.ok d → dictKeys d = dictKeys m) ∧
    (∀ (gen : Nat → Except Unit String) (passes : Nat) (intensity : String)
        (m : Dict) (mt : String) (tone : ToneConfig) (template : TemplateConfig) (d : Dict),
      (humanizeRun gen true passes intensity m mt tone template).2 = Except.ok d →
        dictKeys d = dictKeys m) := by
  constructor
  · intro gen m tone template fc d h
    unfold editRun at h
    cases hg : gen (build_editing_prompt m tone fc) with
    | error e => simp only [hg] at h; exact Except.noConfusion h
    | ok t =>
      simp only [hg, Except.ok.injEq] at h
      rw [← h]
      exact dictKeys_mergeSections m _
  · intro gen passes intensity m mt tone template d h
    unfold humanizeRun at h
    simp only [Bool.not_true, Bool.false_eq_true, if_false] at h
    cases hres : (humanizePassLoop gen (dictKeys m) mt tone template intensity
        (detect_ai_patterns (format_article_for_humanization m) (some mt))
        (variation_score_lt_half (format_article_for_humanization m)) passes 1 m).2 with
    | error e => simp only [hres, Except.map] at h; exact Except.noConfusion h
    | ok cur =>
      simp only [hres, Except.map, Except.ok.injEq] at h
      rw [← h]
      exact dictKeys_mergeSections m cur

/-- Witness for C9: a concrete successful edit and humanize run, each
preserving the key list. -/
theorem C9_key_set_preservation_witness :
    (editRun (fun _ => Except.ok "") [("headline", "A")] ⟨"", "", []⟩ ⟨[⟨"headline", true⟩]⟩
        false = Except.ok [("headline", "A")] ∧
      dictKeys [("headline", "A")] = dictKeys [("headline", "A")]) ∧
    ((humanizeRun (fun _ => Except.ok "<headline>New</headline>") true 1 "medium"
        [("headline", "A")] "tech_news" ⟨"", "", []⟩ ⟨[⟨"headline", true⟩]⟩).2 =
        Except.ok [("headline", "New")] ∧
      dictKeys [("headline", "New")] = dictKeys [("headline", "A")]) :=
  ⟨⟨rfl,
    C9_key_set_preservation.1 (fun _ => Except.ok "") [("headline", "A")] ⟨"", "", []⟩
      ⟨[⟨"headline", true⟩]⟩ false [("headline", "A")] rfl⟩,
   ⟨rfl,
    C9_key_set_preservation.2 (fun _ => Except.ok "<headline>New</headline>") 1 "medium"
      [("headline", "A")] "tech_news" ⟨"", "", []⟩ ⟨[⟨"headline", true⟩]⟩
      [("headline", "New")] rfl⟩⟩

/-- C10: an empty user-context dict is indistinguishable from an absent
one: both hash to the empty string, so `get_cache_key` (and hence the
exists/load/save addressing built on it) coincides on the two forms, for
every topic and search config. -/
theorem C10_empty_context_equals_absent :
    hash_user_context (some []) = "" ∧ hash_user_context none = "" ∧
    ∀ (topic : String) (cfg : Option SearchConfig),
      get_cache_key topic (some []) cfg = get_cache_key topic none cfg :=
  ⟨rfl, rfl, fun _ _ => rfl⟩

/-- The dedup loop output is a sublist of its input (order preserved). -/
theorem dedupByUrlGo_sublist (rs : List SearchResult) :
    ∀ seen, (dedupByUrlGo seen rs).Sublist rs := by
  induction rs with
  | nil => intro seen; simp [dedupByUrlGo]
  | cons r rest ih =>
    intro seen
    by_cases hc : seen.contains r.url
    · simp only [dedupByUrlGo, hc, if_true]
      exact (ih seen).cons r
    · simp only [dedupByUrlGo, hc, if_false]
      exact (ih (r.url :: seen)).cons₂ r

/-- Urls in the dedup loop output avoid the seen set. -/
theorem dedupByUrlGo_mem_url_not_seen (rs : List SearchResult) :
    ∀ (seen : List String) (u : String),
      u ∈ (dedupByUrlGo seen rs).map (fun r => r.url) → u ∉ seen := by
  induction rs with
  | nil => intro seen u h; simp [dedupByUrlGo] at h
  | cons r rest ih =>
    intro seen u h
    by_cases hc : seen.contains r.url
    · simp only [dedupByUrlGo, hc, if_true] at h
      exact ih seen u h
    · simp only [dedupByUrlGo, hc, if_false, List.map_cons] at h
      rcases List.mem_cons.mp h with he | ht
      · subst he
        intro hmem
        exact absurd (List.elem_iff.mpr hmem) (by simpa using hc)
      · have := ih (r.url :: seen) u ht
        intro hmem
        exact this (List.mem_cons_of_mem _ hmem)

/-- The urls of the dedup loop output are pairwise distinct. -/
theorem dedupByUrlGo_nodup (rs : List SearchResult) :
    ∀ seen, ((dedupByUrlGo seen rs).map (fun r => r.url)).Nodup := by
  induction rs with
  | nil => intro seen; simp [dedupByUrlGo]
  | cons r rest ih =>
    intro seen
    by_cases hc : seen.contains r.url
    · simp only [dedupByUrlGo, hc, if_true]
      exact ih seen
    · simp only [dedupByUrlGo, hc, if_false, List.map_cons]
      refine List.Nodup.cons ?_ (ih (r.url :: seen))
      intro hmem
      exact dedupByUrlGo_mem_url_not_seen rest (r.url :: seen) r.url hmem
        (List.mem_cons_self _ _)

/-- Every input url survives into the dedup loop output (or was already
seen). -/
theorem dedupByUrlGo_cover (rs : List SearchResult) :
    ∀ (seen : List String) (r : SearchResult), r ∈ rs →
      r.url ∈ seen ∨ ∃ r' ∈ dedupByUrlGo seen rs, r'.url = r.url := by
  induction rs with
  | nil => intro seen r h; simp at h
  | cons a rest ih =>
    intro seen r h
    by_cases hc : seen.contains a.url
    · simp only [dedupByUrlGo, hc, if_true]
      cases h with
      | head => exact Or.inl (List.elem_iff.mp (by simpa using hc))
      | tail _ ht => exact ih seen r ht
    · simp only [dedupByUrlGo, hc, if_false]
      cases h with
      | head => exact Or.inr ⟨a, List.mem_cons_self _ _, rfl⟩
      | tail _ ht =>
        cases ih (a.url :: seen) r ht with
        | inl hm =>
          cases List.mem_cons.mp hm with
          | inl he => exact Or.inr ⟨a, List.mem_cons_self _ _, he.symm⟩
          | inr hs => exact Or.inl hs
        | inr hex =>
          obtain ⟨r', hr', heq⟩ := hex
          exact Or.inr ⟨r', List.mem_cons_of_mem _ hr', heq⟩

/-- C1 counterexample: the research stage deduplicates by the raw url
string, so two records whose urls differ only by a trailing slash — equal
under `normalize_url_for_dedup` — both survive, violating the claimed
normalized-url invariant. -/
theorem C1_counterexample :
    researchUniqueResults
        [⟨"A", "https://example.com/page", "", none⟩,
         ⟨"B", "https://example.com/page/", "", none⟩] 10 =
      [⟨"A", "https://example.com/page", "", none⟩,
       ⟨"B", "https://example.com/page/", "", none⟩] ∧
    normalize_url_for_dedup "https://example.com/page" =
      normalize_url_for_dedup "https://example.com/page/" ∧
    ¬ (researchUniqueResults
        [⟨"A", "https://example.com/page", "", none⟩,
         ⟨"B", "https://example.com/page/", "", none⟩] 10).Pairwise
        (fun a b => normalize_url_for_dedup a.url ≠ normalize_url_for_dedup b.url) := by
  refine ⟨by decide, by decide, ?_⟩
  intro hp
  rw [show researchUniqueResults
        [⟨"A", "https://example.com/page", "", none⟩,
         ⟨"B", "https://example.com/page/", "", none⟩] 10 =
      [⟨"A", "https://example.com/page", "", none⟩,
       ⟨"B", "https://example.com/page/", "", none⟩] from by decide] at hp
  have h12 := (List.pairwise_cons.mp hp).1 _ (List.mem_cons_self _ _)
  exact h12 (by decide)

/-- C1 amended: the assembled sources are deduplicated by the exact url
string (not the normalized url): first occurrence wins, input order is
preserved (the result is a sublist), the result is truncated to
`max_results`, and before truncation every input url is represented. -/
theorem C1_amended_dedup_by_raw_url :
    ∀ (allResults : List SearchResult) (maxResults : Nat),
      ((researchUniqueResults allResults maxResults).map (fun r => r.url)).Nodup ∧
      (researchUniqueResults allResults maxResults).Sublist allResults ∧
      (researchUniqueResults allResults maxResults).length ≤ maxResults ∧
      (∀ r ∈ allResults, ∃ r' ∈ dedupByUrl allResults, r'.url = r.url) := by
  intro rs n
  refine ⟨?_, ?_, ?_, ?_⟩
  · exact ((dedupByUrlGo_nodup rs []).sublist
      ((List.take_sublist n (dedupByUrl rs)).map (fun r : SearchResult => r.url)))
  · exact (List.take_sublist n (dedupByUrl rs)).trans (dedupByUrlGo_sublist rs [])
  · exact List.length_take_le n (dedupByUrl rs)
  · intro r hr
    cases dedupByUrlGo_cover rs [] r hr with
    | inl h => simp at h
    | inr h => exact h

/-- Witness for C1 amended at a concrete duplicate-url input. -/
theorem C1_amended_witness :
    ((researchUniqueResults [⟨"A", "u", "", none⟩, ⟨"B", "u", "", none⟩] 1).map
        (fun r => r.url)).Nodup ∧
    (researchUniqueResults [⟨"A", "u", "", none⟩, ⟨"B", "u", "", none⟩] 1).Sublist
      [⟨"A", "u", "", none⟩, ⟨"B", "u", "", none⟩] ∧
    (researchUniqueResults [⟨"A", "u", "", none⟩, ⟨"B", "u", "", none⟩] 1).length ≤ 1 ∧
    ∃ r' ∈ dedupByUrl [⟨"A", "u", "", none⟩, ⟨"B", "u", "", none⟩],
      r'.url = (⟨"B", "u", "", none⟩ : SearchResult).url := by
  have h := C1_amended_dedup_by_raw_url [⟨"A", "u", "", none⟩, ⟨"B", "u", "", none⟩] 1
  exact ⟨h.1, h.2.1, h.2.2.1, h.2.2.2 ⟨"B", "u", "", none⟩ (by decide)⟩

/-- Shape of the cache key: the 16-hex-character hash of the joined
components, an underscore, and the filename-sanitized raw topic. -/
theorem get_cache_key_shape (t : String) (c : Option Dict) (s : Option SearchConfig) :
    get_cache_key t c s =
      (⟨(sha256Hex (pyJoin "|" ([normalize_topic t, hash_user_context c] ++
          (match s with
           | some cfg => [cfg.provider, toString cfg.max_results]
           | none => [])))).data.take 16⟩ : String) ++ "_" ++ sanitize_filename t 30 := rfl

/-- C2 counterexample: the topics `AI` and `ai` differ only in casing
(equal after normalization), yet their cache keys differ, because the key
embeds the filename-sanitized raw topic after the hash. -/
theorem C2_counterexample :
    normalize_topic "AI" = normalize_topic "ai" ∧
    get_cache_key "AI" none none ≠ get_cache_key "ai" none none := by
  refine ⟨by decide, ?_⟩
  intro h
  rw [get_cache_key_shape, get_cache_key_shape,
    show normalize_topic "AI" = normalize_topic "ai" from by decide] at h
  exact absurd (stringAppendLeftCancel _ _ _ h) (by decide)

/-- C2 amended: the cache key function is deterministic; topics with
equal normalizations share the 16-hex hash component, so their keys agree
exactly when their filename-sanitized forms agree (casing alone can
change the key); and the user context enters the key only through
`hash_user_context`, so contexts with equal hashes give equal keys
(distinct contexts are separated only up to truncated-SHA-256
collisions). -/
theorem C2_amended_cache_key :
    (∀ (t : String) (c : Option Dict) (s : Option SearchConfig),
       get_cache_key t c s = get_cache_key t c s) ∧
    (∀ (t₁ t₂ : String) (c : Option Dict) (s : Option SearchConfig),
       normalize_topic t₁ = normalize_topic t₂ →
       (get_cache_key t₁ c s = get_cache_key t₂ c s ↔
         sanitize_filename t₁ 30 = sanitize_filename t₂ 30)) ∧
    (∀ (t : String) (c₁ c₂ : Option Dict) (s : Option SearchConfig),
       hash_user_context c₁ = hash_user_context c₂ →
       get_cache_key t c₁ s = get_cache_key t c₂ s) := by
  refine ⟨fun _ _ _ => rfl, ?_, ?_⟩
  · intro t₁ t₂ c s hn
    constructor
    · intro h
      rw [get_cache_key_shape t₁, get_cache_key_shape t₂, hn] at h
      exact stringAppendLeftCancel _ _ _ h
    · intro hs
      rw [get_cache_key_shape t₁, get_cache_key_shape t₂, hn, hs]
  · intro t c₁ c₂ s hc
    rw [get_cache_key_shape t c₁, get_cache_key_shape t c₂, hc]

/-- Witness for C2 amended: a whitespace/casing variant pair and an equal
context hash at concrete inputs. -/
theorem C2_amended_witness :
    normalize_topic " AI " = normalize_topic "ai" ∧
    (get_cache_key " AI " none none = get_cache_key "ai" none none ↔
      sanitize_filename " AI " 30 = sanitize_filename "ai" 30) ∧
    get_cache_key "t" (some [("a", "b")]) none =
      get_cache_key "t" (some [("a", "b")]) none :=
  ⟨by decide,
   C2_amended_cache_key.2.1 " AI " "ai" none none (by decide),
   C2_amended_cache_key.2.2 "t" (some [("a", "b")]) (some [("a", "b")]) none rfl⟩

/-- C3 counterexample: a stored entry whose metadata version `0.9`
differs from the running `CACHE_VERSION` is rejected by `cache_exists`,
but `load_research` still returns its data — the metadata file is never
consulted on the load path. -/
theorem C3_counterexample :
    cache_exists ⟨some (Except.ok ⟨[], "f", "c", [], none⟩),
        some (Except.ok ⟨"0.9", "topic", "", "exa", 10, "ts"⟩)⟩ = false ∧
    load_research ⟨some (Except.ok ⟨[], "f", "c", [], none⟩),
        some (Except.ok ⟨"0.9", "topic", "", "exa", 10, "ts"⟩)⟩ =
      some ⟨[], "f", "c", [], none⟩ ∧
    ("0.9" : String) ≠ CACHE_VERSION :=
  ⟨rfl, rfl, by decide⟩

/-- C3 amended: a metadata version different from `CACHE_VERSION` makes
`cache_exists` false, but `load_research` ignores the metadata entirely:
its result is the same as with no metadata at all, so a mismatched
version does not prevent loading. -/
theorem C3_amended_version_gating :
    ∀ (r : Option (Except Unit ResearchData)) (m : Option (Except Unit CacheMetadata))
      (md : CacheMetadata),
      m = some (Except.ok md) → md.version ≠ CACHE_VERSION →
      cache_exists ⟨r, m⟩ = false ∧ load_research ⟨r, m⟩ = load_research ⟨r, none⟩ := by
  intro r m md hm hv
  subst hm
  refine ⟨?_, rfl⟩
  cases r with
  | none => rfl
  | some x => simp [cache_exists, hv]

/-- Witness for C3 amended at the concrete mismatched entry. -/
theorem C3_amended_witness :
    cache_exists ⟨some (Except.ok ⟨[], "f", "c", [], none⟩),
        some (Except.ok ⟨"0.9", "topic", "", "exa", 10, "ts"⟩)⟩ = false ∧
    load_research ⟨some (Except.ok ⟨[], "f", "c", [], none⟩),
        some (Except.ok ⟨"0.9", "topic", "", "exa", 10, "ts"⟩)⟩ =
      load_research ⟨some (Except.ok ⟨[], "f", "c", [], none⟩), none⟩ :=
  C3_amended_version_gating (some (Except.ok ⟨[], "f", "c", [], none⟩))
    (some (Except.ok ⟨"0.9", "topic", "", "exa", 10, "ts"⟩))
    ⟨"0.9", "topic", "", "exa", 10, "ts"⟩ rfl (by decide)

/-- C4 counterexample: with `passes = 2` and the second generation call
raising, the dict that reaches the rest of the pipeline is the pristine
pre-humanization map (`headline = Old`), not the pass-1 map
(`headline = New`, the result of the same run with `passes = 1`). -/
theorem C4_counterexample :
    pipelineHumanizeStep
        (fun i => if i == 0 then Except.ok "<headline>New</headline>" else Except.error ())
        true 2 "medium" [("headline", "Old")] "tech_news" ⟨"", "", []⟩
        ⟨[⟨"headline", true⟩]⟩ =
      [("headline", "Old")] ∧
    (humanizeRun
        (fun i => if i == 0 then Except.ok "<headline>New</headline>" else Except.error ())
        true 1 "medium" [("headline", "Old")] "tech_news" ⟨"", "", []⟩
        ⟨[⟨"headline", true⟩]⟩).2 =
      Except.ok [("headline", "New")] ∧
    ([("headline", "Old")] : Dict) ≠ [("headline", "New")] :=
  ⟨by decide, rfl, by decide⟩

/-- C4 amended: `humanize` has no internal exception handling, so an
exception in any pass propagates out of the whole call; the pipeline then
falls back to its own input, the pre-humanization (edited) map — the
pass-1 output is lost. The map that reaches the rest of the pipeline is
the edited map, less any `sources`/`references` keys. -/
theorem C4_amended_fallback_to_edited :
    ∀ (gen : Nat → Except Unit String) (passes : Nat) (intensity : String)
      (edited : Dict) (mt : String) (tone : ToneConfig) (template : TemplateConfig)
      (e : Unit),
      (humanizeRun gen true passes intensity edited mt tone template).2 = Except.error e →
      pipelineHumanizeStep gen true passes intensity edited mt tone template =
        dictRemove (dictRemove edited "sources") "references" := by
  intro gen passes intensity edited mt tone template e h
  simp only [pipelineHumanizeStep, if_true, h]

/-- Witness for C4 amended at the concrete failing two-pass run. -/
theorem C4_amended_witness :
    (humanizeRun
        (fun i => if i == 0 then Except.ok "<headline>New</headline>" else Except.error ())
        true 2 "medium" [("headline", "Old")] "tech_news" ⟨"", "", []⟩
        ⟨[⟨"headline", true⟩]⟩).2 = Except.error () ∧
    pipelineHumanizeStep
        (fun i => if i == 0 then Except.ok "<headline>New</headline>" else Except.error ())
        true 2 "medium" [("headline", "Old")] "tech_news" ⟨"", "", []⟩
        ⟨[⟨"headline", true⟩]⟩ =
      dictRemove (dictRemove [("headline", "Old")] "sources") "references" :=
  ⟨rfl,
   C4_amended_fallback_to_edited
     (fun i => if i == 0 then Except.ok "<headline>New</headline>" else Except.error ())
     2 "medium" [("headline", "Old")] "tech_news" ⟨"", "", []⟩
     ⟨[⟨"headline", true⟩]⟩ () rfl⟩

/-- Two assembled humanizer prompts with focus blocks of different
lengths are different strings. -/
theorem humanizerPromptAssembleNe (td i tl sl a mt : String) (n : Nat) (f g : String)
    (h : f.length ≠ g.length) :
    humanizerPromptAssemble td f i tl sl a mt n ≠
      humanizerPromptAssemble td g i tl sl a mt n := by
  intro he
  have hl := congrArg String.length he
  simp only [humanizerPromptAssemble, String.length_append] at hl
  omega

/-- At pass 2, passing a nonempty detected-pattern list changes the
prompt (the detected-patterns block is appended to the focus). -/
theorem build_pass2_some_ne_none (d : Dict) (mt : String) (tone : ToneConfig)
    (v : Option Bool) (i : String) (p : String × Nat) (ps : List (String × Nat)) :
    build_humanization_prompt d mt tone 2 (some (p :: ps)) v i ≠
      build_humanization_prompt d mt tone 2 none v i := by
  show humanizerPromptAssemble _ (focusPass2Text ++ (detectedPatternsMarker ++
      pyJoin ", " (((p :: ps).take 15).map (fun q => q.1)) ++ detectedPatternsTail))
      _ _ _ _ _ _ ≠
    humanizerPromptAssemble _ (focusPass2Text ++ "") _ _ _ _ _ _
  apply humanizerPromptAssembleNe
  simp only [String.length_append]
  have h1 : detectedPatternsMarker.length = 37 := by decide
  have h2 : ("" : String).length = 0 := by decide
  omega

/-- C7 (code bug): on a two-pass humanize run over an article containing
the catalogued phrase `Last but not least`, the detection pass over the
pass-1 text does find the phrase, yet the pass-2 prompt the run issues is
built with `detected_patterns = none` — `humanize` passes
`patterns if pass_num == 1 else None` while only the pass-2 branch of the
prompt builder consumes the argument — and is therefore a different
string from the prompt that would carry the detected list. -/
theorem C7_pass2_prompt_drops_detected_patterns :
    (let resp := "<section name=\"opening\">Last but not least, details matter.</section>"
     let M : Dict := [("opening", "Last but not least, details matter.")]
     let template : TemplateConfig := ⟨[⟨"opening", true⟩]⟩
     let gen : Nat → Except Unit String := fun _ => Except.ok resp
     let run := humanizeRun gen true 2 "medium" M "tech_news" ⟨"", "", []⟩ template
     let pass1dict := parse_humanized_sections resp template (dictKeys M)
     detect_ai_patterns (format_article_for_humanization pass1dict) (some "tech_news") =
       [("Last but not least", 1)] ∧
     run.1.getD 1 "" =
       build_humanization_prompt pass1dict "tech_news" ⟨"", "", []⟩ 2 none none "medium" ∧
     build_humanization_prompt pass1dict "tech_news" ⟨"", "", []⟩ 2
         (some [("Last but not least", 1)]) none "medium" ≠
       run.1.getD 1 "") := by
  refine ⟨?_, ?_, ?_⟩
  · decide
  · rfl
  · exact build_pass2_some_ne_none _ "tech_news" ⟨"", "", []⟩ none "medium"
      ("Last but not least", 1) []

/-- The `format_sources` dedup keeps at least one record when some source
has a nonempty normalized url outside the seen set. -/
theorem dedupSourceRecsGo_ne_nil :
    ∀ (l : List SourceRec) (seen : List String),
      (∃ s ∈ l, normalize_url_for_dedup s.url ≠ "" ∧
        normalize_url_for_dedup s.url ∉ seen) →
      dedupSourceRecsGo seen l ≠ [] := by
  intro l
  induction l with
  | nil =>
    intro seen h
    obtain ⟨s, hs, _⟩ := h
    exact absurd hs (List.not_mem_nil s)
  | cons a rest ih =>
    intro seen h
    obtain ⟨s, hs, hne, hnm⟩ := h
    cases hcond : (normalize_url_for_dedup a.url ≠ "" &&
        !seen.contains (normalize_url_for_dedup a.url) : Bool) with
    | true =>
      simp only [dedupSourceRecsGo, hcond, if_true]
      exact List.cons_ne_nil _ _
    | false =>
      simp only [dedupSourceRecsGo, hcond, Bool.false_eq_true, if_false]
      apply ih seen
      rcases List.mem_cons.mp hs with heq | hmem
      · exfalso
        subst heq
        have hcf : seen.contains (normalize_url_for_dedup s.url) = false := by
          cases hval : seen.contains (normalize_url_for_dedup s.url) with
          | false => rfl
          | true => exact absurd (List.elem_iff.mp hval) hnm
        rw [hcf, decide_eq_true hne] at hcond
        simp at hcond
      · exact ⟨s, hmem, hne, hnm⟩

/-- The head of a joined list is a lower bound on the joined length. -/
theorem pyJoin_length_ge_head (sep a : String) (parts : List String) :
    a.length ≤ (pyJoin sep (a :: parts)).length := by
  show a.length ≤ (parts.foldl (fun acc q => acc ++ sep ++ q) a).length
  induction parts generalizing a with
  | nil => exact Nat.le_refl _
  | cons q rest ih =>
    refine Nat.le_trans ?_ (ih (a ++ sep ++ q))
    simp only [String.length_append]
    omega

/-- A string of positive length is nonempty. -/
theorem string_ne_empty_of_length_pos (s : String) (h : 0 < s.length) : s ≠ "" := by
  intro he
  rw [he] at h
  exact Nat.lt_irrefl 0 h

/-- The fallback formatter output is nonempty whenever its dedup keeps a
record: it then starts with the `## Sources` header. -/
theorem format_sources_ne_empty (sources : List SourceRec)
    (hs : sources ≠ []) (hd : dedupSourceRecsGo [] sources ≠ []) :
    format_sources sources ≠ "" := by
  unfold format_sources
  rw [if_neg (by simpa using hs), if_neg (by simpa using hd)]
  apply string_ne_empty_of_length_pos
  have hle := pyJoin_length_ge_head "\n" "## Sources"
    ([""] ++ (dedupSourceRecsGo [] sources).enum.foldr
      (fun p acc => formatSourceEntry p.1 p.2 ++ acc) [])
  have h10 : ("## Sources" : String).length = 10 := by decide
  simp only [List.cons_append, List.nil_append] at hle ⊢
  omega

/-- C8 counterexample: with source inclusion enabled and one source
record present — but with an empty url, so the fallback formatter also
returns the empty string — no sources block is appended to the document. -/
theorem C8_counterexample :
    pipelineSourcesBlock true [⟨"t", "", "", none⟩] (Except.ok "") = none ∧
    ([⟨"t", "", "", none⟩] : List SearchResult) ≠ [] :=
  ⟨by decide, by decide⟩

/-- C8 amended: when source inclusion is enabled and some source has a
url with a nonempty normalization, a sources block is always appended:
the agent-formatted output when it is nonempty and at least 50 characters
long once stripped, and the deterministic fallback `format_sources`
otherwise (the block can only be missing when every source url
normalizes to the empty string, as in the counterexample). -/
theorem C8_amended_sources_block :
    ∀ (srcs : List SearchResult) (r : Except Unit String),
      (∃ s ∈ srcs, normalize_url_for_dedup s.url ≠ "") →
      ∃ block,
        pipelineSourcesBlock true srcs r = some block ∧ block ≠ "" ∧
        (let sources_list := srcs.map (fun s => SourceRec.mk s.title s.url s.snippet)
         let sm := agent_format_sources sources_list r
         ((sm = "" ∨ (pyStrip sm).data.length < 50) → block = format_sources sources_list) ∧
         (sm ≠ "" → 50 ≤ (pyStrip sm).data.length → block = sm)) := by
  intro srcs r hex
  obtain ⟨s, hsmem, hn⟩ := hex
  have hne : srcs ≠ [] := List.ne_nil_of_mem hsmem
  have hempty : srcs.isEmpty = false := by
    cases srcs with
    | nil => exact absurd rfl hne
    | cons _ _ => rfl
  have hslne : srcs.map (fun s => SourceRec.mk s.title s.url s.snippet) ≠ [] := by
    simpa using hne
  have hdne : dedupSourceRecsGo []
      (srcs.map (fun s => SourceRec.mk s.title s.url s.snippet)) ≠ [] := by
    apply dedupSourceRecsGo_ne_nil
    exact ⟨⟨s.title, s.url, s.snippet⟩, List.mem_map.mpr ⟨s, hsmem, rfl⟩, hn,
      List.not_mem_nil _⟩
  have hfne : format_sources (srcs.map (fun s => SourceRec.mk s.title s.url s.snippet)) ≠ "" :=
    format_sources_ne_empty _ hslne hdne
  cases hcond : (agent_format_sources
        (srcs.map (fun s => SourceRec.mk s.title s.url s.snippet)) r == "" ||
      decide ((pyStrip (agent_format_sources
        (srcs.map (fun s => SourceRec.mk s.title s.url s.snippet)) r)).data.length < 50)) with
  | true =>
    refine ⟨format_sources (srcs.map (fun s => SourceRec.mk s.title s.url s.snippet)),
      ?_, hfne, ?_, ?_⟩
    · simp only [pipelineSourcesBlock, hempty, Bool.not_false, Bool.and_self, if_true,
        hcond, Bool.true_eq_false]
      rw [if_pos hfne]
    · intro _
      rfl
    · intro hsm hlen
      exfalso
      rcases Bool.or_eq_true_iff.mp hcond with hb | hb
      · exact hsm (eq_of_beq hb)
      · exact absurd (of_decide_eq_true hb) (Nat.not_lt.mpr hlen)
  | false =>
    have hor := Bool.or_eq_false_iff.mp hcond
    have hsmne : agent_format_sources
        (srcs.map (fun s => SourceRec.mk s.title s.url s.snippet)) r ≠ "" := by
      intro he
      rw [he] at hcond
      simp at hcond
    have hlenge : ¬ (pyStrip (agent_format_sources
        (srcs.map (fun s => SourceRec.mk s.title s.url s.snippet)) r)).data.length < 50 :=
      of_decide_eq_false hor.2
    refine ⟨agent_format_sources (srcs.map (fun s => SourceRec.mk s.title s.url s.snippet)) r,
      ?_, hsmne, ?_, ?_⟩
    · simp only [pipelineSourcesBlock, hempty, Bool.not_false, Bool.and_self, if_true,
        hcond, Bool.false_eq_true, if_false]
      rw [if_pos hsmne]
    · intro hyp
      exfalso
      rcases hyp with hb | hb
      · exact hsmne hb
      · exact hlenge hb
    · intro _ _
      rfl

/-- Witness for C8 amended at a concrete normal-url source with a
too-short agent output. -/
theorem C8_amended_witness :
    ∃ block,
      pipelineSourcesBlock true [⟨"Example", "https://example.com/page", "", none⟩]
          (Except.ok "") = some block ∧ block ≠ "" ∧
      (let sources_list := [(⟨"Example", "https://example.com/page", "", none⟩ :
          SearchResult)].map (fun s => SourceRec.mk s.title s.url s.snippet)
       let sm := agent_format_sources sources_list (Except.ok "")
       ((sm = "" ∨ (pyStrip sm).data.length < 50) → block = format_sources sources_list) ∧
       (sm ≠ "" → 50 ≤ (pyStrip sm).data.length → block = sm)) :=
  C8_amended_sources_block [⟨"Example", "https://example.com/page", "", none⟩]
    (Except.ok "")
    ⟨⟨"Example", "https://example.com/page", "", none⟩, by decide, by decide⟩
